import Mathlib

/-!
Verification of the analytics aggregation engine of the foodpanda-analytics
dashboard (src/lib/services/analytics.service.ts, with types from
src/types and the food-category constants from src/lib/constants.ts).

Modelling conventions:
* JavaScript numbers that can only hold genuine finite values are modelled
  as rationals; counts are naturals.
* A JavaScript Date is modelled by a parsed calendar value; an unparseable
  date string ("Invalid Date", whose numeric projections are NaN) is
  modelled as `none`.  Where NaN can reach a stored field the field type is
  an `Option`.  The runtime timezone is assumed to be UTC, so the local
  projections (getHours, getDay, getFullYear, getMonth) coincide with the
  UTC calendar of the parsed timestamp.
* JavaScript plain objects used as maps (Record<string, number>) are
  modelled as association lists in the object key iteration order:
  insertion order of first occurrence for non-integer keys, ascending
  numeric order for integer-like keys.
* `Array.prototype.sort` (a stable sort) is modelled by `List.insertionSort`,
  which is stable.
* The only statement in the service that can throw is
  `Date.prototype.toISOString` applied to an invalid date, which throws
  `RangeError: Invalid time value`; functions that can reach it return
  `Except JsError _`.
-/

namespace FoodpandaDash

/- The core `Rat` arithmetic operations are `@[irreducible]`, which blocks
the `decide` tactic from evaluating concrete rational computations; they
are perfectly computable, so re-expose them for elaboration-time
reduction (this has no effect on soundness: the kernel never honours
reducibility attributes). -/
attribute [local semireducible] Rat.add Rat.mul Rat.inv Rat.sub

/-- The only runtime error the analytics service can raise: the RangeError
thrown by `toISOString` on an invalid date. -/
inductive JsError where
  | rangeError (message : String) : JsError
deriving DecidableEq, Repr

instance {ε α : Type} [DecidableEq ε] [DecidableEq α] : DecidableEq (Except ε α) :=
  fun x y =>
    match x, y with
    | .ok a, .ok b =>
      if h : a = b then .isTrue (by rw [h]) else .isFalse (fun hh => h (Except.ok.inj hh))
    | .error e, .error f =>
      if h : e = f then .isTrue (by rw [h]) else .isFalse (fun hh => h (Except.error.inj hh))
    | .ok _, .error _ => .isFalse (fun hh => Except.noConfusion hh)
    | .error _, .ok _ => .isFalse (fun hh => Except.noConfusion hh)

/-- A parsed calendar timestamp (UTC), the model of a valid JS Date. -/
structure JSDate where
  year : Int
  month : Nat   -- 1..12, as in ISO strings (JS getMonth() is month - 1)
  day : Nat
  hour : Nat
  minute : Nat
  second : Nat
deriving DecidableEq, Repr

/-- Days from the civil epoch 1970-01-01 (Howard Hinnant's algorithm,
specialised to the Gregorian calendar).  All intermediate values are
non-negative for the years used here, so truncated division agrees with
floor division. -/
def daysFromCivil (y : Int) (m d : Nat) : Int :=
  let y' : Int := if m ≤ 2 then y - 1 else y
  let era : Int := (if 0 ≤ y' then y' else y' - 399) / 400
  let yoe : Int := y' - era * 400
  let mp : Int := if 2 < m then (m : Int) - 3 else (m : Int) + 9
  let doy : Int := (153 * mp + 2) / 5 + (d : Int) - 1
  let doe : Int := yoe * 365 + yoe / 4 - yoe / 100 + doy
  era * 146097 + doe - 719468

def isLeapYear (y : Int) : Bool :=
  y % 4 = 0 && (y % 100 ≠ 0 || y % 400 = 0)

def daysInMonth (y : Int) (m : Nat) : Nat :=
  if m = 2 then (if isLeapYear y then 29 else 28)
  else if m = 4 ∨ m = 6 ∨ m = 9 ∨ m = 11 then 30
  else 31

/-!
String helpers.  Core string functions such as `String.splitOn` are
implemented by well-founded recursion and do not reduce inside the kernel,
so the character-level operations needed here are (re)implemented by
structural recursion over `List Char`.
-/

/-- Split a character list at every occurrence of the separator character. -/
def splitOnCharAux (c : Char) : List Char → List Char → List (List Char)
  | [], acc => [acc.reverse]
  | a :: t, acc =>
    if a = c then acc.reverse :: splitOnCharAux c t []
    else splitOnCharAux c t (a :: acc)

def splitOnChar (c : Char) (l : List Char) : List (List Char) :=
  splitOnCharAux c l []

/-- Decimal digits of a character list, if they are all digits (and the
list is non-empty). -/
def digitsToNat : List Char → Option Nat
  | [] => none
  | l =>
    if l.all Char.isDigit then
      some (l.foldl (fun acc c => acc * 10 + (c.toNat - 48)) 0)
    else none

/-- Parse a fixed-width decimal field. -/
def parseNatField (s : List Char) (width : Nat) : Option Nat :=
  if s.length = width then digitsToNat s else none

/-- Parse the date part "YYYY-MM-DD" of an ISO-8601 string, validating the
calendar ranges exactly as the JS ISO date parser does. -/
def parseDatePart (s : List Char) : Option (Int × Nat × Nat) :=
  match splitOnChar '-' s with
  | [ys, ms, ds] =>
    match parseNatField ys 4, parseNatField ms 2, parseNatField ds 2 with
    | some y, some m, some d =>
      if 1 ≤ m && m ≤ 12 && 1 ≤ d && d ≤ daysInMonth y m then
        some ((y : Int), m, d)
      else none
    | _, _, _ => none
  | _ => none

/-- Parse the time part "HH:MM:SS" (an optional trailing "Z" is stripped by
the caller). -/
def parseTimePart (s : List Char) : Option (Nat × Nat × Nat) :=
  match splitOnChar ':' s with
  | [hs, ms, ss] =>
    match parseNatField hs 2, parseNatField ms 2, parseNatField ss 2 with
    | some h, some mi, some se =>
      if h ≤ 23 && mi ≤ 59 && se ≤ 59 then some (h, mi, se) else none
    | _, _, _ => none
  | _ => none

/-- Model of `new Date(s)` restricted to the ISO-8601 forms that occur in
this development: "YYYY-MM-DD" (parsed as UTC midnight, as JS does) and
"YYYY-MM-DDTHH:MM:SS" with an optional "Z" suffix (the runtime locale is
assumed UTC, so both the Z and the no-Z form denote the same instant).
Every other string yields an invalid date, i.e. `none`. -/
def jsParseDate (s : String) : Option JSDate :=
  match splitOnChar 'T' s.data with
  | [datePart] =>
    (parseDatePart datePart).map fun (y, m, d) =>
      { year := y, month := m, day := d, hour := 0, minute := 0, second := 0 }
  | [datePart, timePart] =>
    let timePart := if timePart.getLast? = some 'Z' then timePart.dropLast else timePart
    match parseDatePart datePart, parseTimePart timePart with
    | some (y, m, d), some (h, mi, se) =>
      some { year := y, month := m, day := d, hour := h, minute := mi, second := se }
    | _, _ => none
  | _ => none

/-- Epoch milliseconds of a parsed date (model of `Date.prototype.getTime`
on a valid date). -/
def epochMs (d : JSDate) : Int :=
  (daysFromCivil d.year d.month d.day) * 86400000
    + ((d.hour * 3600 + d.minute * 60 + d.second : Nat) : Int) * 1000

/-- Model of `getDay()` on a valid date: 0 = Sunday .. 6 = Saturday.
1970-01-01 was a Thursday (weekday 4). -/
def jsDateDay (d : JSDate) : Nat :=
  ((daysFromCivil d.year d.month d.day + 4) % 7).toNat

/-- Render a natural number in decimal (fuel-based so that it reduces in
the kernel; 30 digits of fuel is far beyond any value occurring here). -/
def natToChars (n : Nat) : List Char :=
  go n 30 []
where
  go : Nat → Nat → List Char → List Char
    | _, 0, acc => acc
    | n, fuel + 1, acc =>
      if n < 10 then Char.ofNat (48 + n) :: acc
      else go (n / 10) fuel (Char.ofNat (48 + n % 10) :: acc)

def natToStr (n : Nat) : String := ⟨natToChars n⟩

def intToStr (i : Int) : String :=
  if i < 0 then ⟨'-' :: natToChars i.natAbs⟩ else natToStr i.natAbs

/-- `String(n).padStart(2, '0')` for a month number. -/
def pad2 (n : Nat) : String :=
  if n < 10 then ⟨'0' :: natToChars n⟩ else natToStr n

/-- Model of `String.prototype.toLowerCase` (ASCII; all keyword matching in
the service is over ASCII text). -/
def jsToLower (s : String) : String := ⟨s.data.map Char.toLower⟩

def trimLeftChars : List Char → List Char
  | [] => []
  | c :: t => if c.isWhitespace then trimLeftChars t else c :: t

/-- Model of `String.prototype.trim`. -/
def jsTrim (s : String) : String :=
  ⟨(trimLeftChars (trimLeftChars s.data.reverse).reverse)⟩

def listStartsWith : List Char → List Char → Bool
  | _, [] => true
  | [], _ :: _ => false
  | a :: as, b :: bs => a = b && listStartsWith as bs

def listContainsSub (sub : List Char) : List Char → Bool
  | [] => sub.isEmpty
  | a :: t => listStartsWith (a :: t) sub || listContainsSub sub t

/-- Model of `String.prototype.includes`. -/
def strIncludes (s sub : String) : Bool :=
  listContainsSub sub.data s.data

/-- `Array.prototype.join('|')`. -/
def joinPipe : List String → String
  | [] => ""
  | [s] => s
  | s :: t => s ++ "|" ++ joinPipe t

/-- Lexicographic comparison of character lists (the JS `<`/`>` string
comparison compares UTF-16 code units; for the ASCII and BMP text handled
here this coincides with code-point order). -/
def charListLe : List Char → List Char → Bool
  | [], _ => true
  | _ :: _, [] => false
  | a :: as, b :: bs => if a = b then charListLe as bs else decide (a < b)

/-- The default (string) comparator of `Array.prototype.sort`. -/
def strLeB (s t : String) : Bool := charListLe s.data t.data

/-!  The input data model (src/types: `OrderItem`, `Order`). -/

structure OrderItem where
  name : String
  quantity : Nat      -- positive integer per the data contract
  price : ℚ
deriving DecidableEq, Repr

structure Order where
  id : String
  order_code : String
  restaurant_name : String
  total_value : ℚ
  subtotal : ℚ
  delivery_fee : ℚ
  service_fee : ℚ
  voucher_discount : ℚ
  status : String
  date : String
  items : List OrderItem
  payment_method : String
deriving DecidableEq, Repr

/-- Placeholder order used only as the default of `List.getD` at indices
that are in bounds whenever the service reaches them. -/
def defaultOrder : Order :=
  { id := "", order_code := "", restaurant_name := "", total_value := 0,
    subtotal := 0, delivery_fee := 0, service_fee := 0, voucher_discount := 0,
    status := "", date := "", items := [], payment_method := "" }

/-- `new Date(o.date).getDay()`; `none` models the NaN of an invalid date. -/
def jsGetDay (o : Order) : Option Nat :=
  (jsParseDate o.date).map jsDateDay

/-- `new Date(o.date).getHours()` (UTC runtime locale); `none` models NaN. -/
def jsGetHours (o : Order) : Option Nat :=
  (jsParseDate o.date).map JSDate.hour

/-- `new Date(o.date).getTime()`, defaulting the (unreachable) invalid-date
NaN to 0; every caller of this function runs only on dates that already
passed through `toISOString`, which raises on invalid dates first. -/
def getTimeD (o : Order) : Int :=
  ((jsParseDate o.date).map epochMs).getD 0

/-- The month key `` `${d.getFullYear()}-${String(d.getMonth() + 1).padStart(2, '0')}` ``
used by the spending and price analyzers; on an invalid date both
projections are NaN and the template renders "NaN-NaN". -/
def monthKey (o : Order) : String :=
  match jsParseDate o.date with
  | none => "NaN-NaN"
  | some d => intToStr d.year ++ "-" ++ pad2 d.month

/-- `new Date(o.date).toISOString().slice(0, 7)`: raises
`RangeError: Invalid time value` on an invalid date, otherwise yields
"YYYY-MM". -/
def toISOMonth (o : Order) : Except JsError String :=
  match jsParseDate o.date with
  | none => .error (.rangeError "Invalid time value")
  | some d => .ok (intToStr d.year ++ "-" ++ pad2 d.month)

/-!  Association-list models of JS object maps. -/

/-- Add `v` to the entry of key `k`, appending the key on first occurrence
(JS object insertion-order semantics for string keys). -/
def upsertQ : List (String × ℚ) → String → ℚ → List (String × ℚ)
  | [], k, v => [(k, v)]
  | (k', v') :: rest, k, v =>
    if k' = k then (k', v' + v) :: rest else (k', v') :: upsertQ rest k v

def upsertNat : List (String × Nat) → String → Nat → List (String × Nat)
  | [], k, v => [(k, v)]
  | (k', v') :: rest, k, v =>
    if k' = k then (k', v' + v) :: rest else (k', v') :: upsertNat rest k v

/-- `_.countBy` over string keys (insertion order of first occurrence). -/
def countByStr (l : List String) : List (String × Nat) :=
  l.foldl (fun acc s => upsertNat acc s 1) []

/-- Append an element to the group of key `k` (model of `_.groupBy`). -/
def appendGroup {α : Type} : List (String × List α) → String → α → List (String × List α)
  | [], k, a => [(k, [a])]
  | (k', l) :: rest, k, a =>
    if k' = k then (k', l ++ [a]) :: rest else (k', l) :: appendGroup rest k a

def groupByKey {α : Type} (f : α → String) (l : List α) : List (String × List α) :=
  l.foldl (fun acc a => appendGroup acc (f a) a) []

/-- Monadic variant used where the key function can raise. -/
def groupByKeyM {α : Type} (f : α → Except JsError String) (l : List α) :
    Except JsError (List (String × List α)) :=
  l.foldlM (fun acc a => do
    let k ← f a
    pure (appendGroup acc k a)) []

/-- Monadic `_.countBy` used where the key function can raise. -/
def countByKeyM {α : Type} (f : α → Except JsError String) (l : List α) :
    Except JsError (List (String × Nat)) :=
  l.foldlM (fun acc a => do
    let k ← f a
    pure (upsertNat acc k 1)) []

/-- Object property lookup, `undefined` as `none`. -/
def assocFind {β : Type} (m : List (String × β)) (k : String) : Option β :=
  (m.find? (fun p => p.1 = k)).map Prod.snd

/-- The fold `keys.reduce((a, b) => counts[a] > counts[b] ? a : b, init)`
used for peak hour / peak day / preferred payment method.  A comparison
with `undefined` is NaN-like and yields `false`, so the accumulator is kept
only when both lookups are defined and strictly greater. -/
def jsReduceMaxKey (counts : List (String × Nat)) (init : String) : String :=
  (counts.map Prod.fst).foldl
    (fun a b =>
      match assocFind counts a, assocFind counts b with
      | some va, some vb => if va > vb then a else b
      | _, _ => b)
    init

/-- `_.sumBy` with a rational-valued projection. -/
def sumBy {α : Type} (f : α → ℚ) (l : List α) : ℚ :=
  (l.map f).sum

/-- `_.mean` of rationals (lodash returns NaN on an empty list; all uses
here are guarded to non-empty lists, where it is sum / length). -/
def meanQ (l : List ℚ) : ℚ := l.sum / l.length

/-!  Output data model (src/types: the analytics facet interfaces).
JS maps (`Record<string, number>`) are association lists; fields that a JS
NaN can reach (`peak_hour` via `parseInt("NaN")`, `spontaneity_index` via
the variance of possibly-NaN hours) are `Option`-typed, NaN being `none`. -/

structure SpendingCategory where
  type : String
  description : String
  color : String
deriving DecidableEq, Repr

structure SpendingAnalytics where
  total_spent : ℚ
  average_order_value : ℚ
  median_order_value : ℚ
  total_delivery_fees : ℚ
  total_service_fees : ℚ
  total_voucher_savings : ℚ
  voucher_usage_rate : ℚ
  monthly_spending : List (String × ℚ)
  spending_category : SpendingCategory
deriving DecidableEq, Repr

structure LoyaltyAnalysis where
  level : String
  description : String
  top_restaurant : String
  top_restaurant_percentage : ℚ
deriving DecidableEq, Repr

structure RestaurantAnalytics where
  top_restaurants_by_orders : List (String × Nat)
  unique_restaurants : Nat
  loyalty_analysis : LoyaltyAnalysis
deriving DecidableEq, Repr

structure FoodAnalytics where
  top_food_items : List (String × Nat)
  food_categories : List (String × Nat)
  average_items_per_order : ℚ
  total_unique_items : Nat
deriving DecidableEq, Repr

structure WeekendVsWeekday where
  weekend_orders : Nat
  weekday_orders : Nat
  weekend_percentage : ℚ
deriving DecidableEq, Repr

structure PatternAnalytics where
  peak_hour : Option Nat
  peak_day : String
  weekend_vs_weekday : WeekendVsWeekday
  hourly_patterns : List (String × Nat)
deriving DecidableEq, Repr

structure PaymentAnalytics where
  payment_method_counts : List (String × Nat)
  preferred_payment_method : String
deriving DecidableEq, Repr

structure PriceRange where
  min : ℚ
  max : ℚ
deriving DecidableEq, Repr

structure PriceAnalytics where
  average_price_per_item : ℚ
  price_range : PriceRange
  restaurant_value_scores : List (String × ℚ)
  discount_effectiveness : ℚ
  price_trend_over_time : List (String × ℚ)
deriving DecidableEq, Repr

structure OrderSizeDistribution where
  small : Nat
  medium : Nat
  large : Nat
deriving DecidableEq, Repr

structure AddonFrequency where
  drinks_percentage : ℚ
  desserts_percentage : ℚ
deriving DecidableEq, Repr

structure ReorderPatterns where
  exact_reorder_count : Nat
  similar_items_frequency : List (String × Nat)
deriving DecidableEq, Repr

structure OrderBehaviorAnalytics where
  order_size_distribution : OrderSizeDistribution
  average_basket_size : ℚ
  addon_frequency : AddonFrequency
  reorder_patterns : ReorderPatterns
deriving DecidableEq, Repr

structure DiversityAnalytics where
  cuisine_switching_rate : ℚ
  new_restaurants_per_month : List (String × Nat)
  restaurant_discovery_rate : ℚ
  cuisine_preference_evolution : List (String × List (String × Nat))
  variety_score : ℚ
deriving DecidableEq, Repr

structure TimeGapDistribution where
  same_day : Nat
  within_week : Nat
  within_month : Nat
  over_month : Nat
deriving DecidableEq, Repr

structure TimeAnalytics where
  order_frequency_trend : List (String × Nat)
  average_days_between_orders : ℚ
  spending_by_day_of_week : List (String × ℚ)
  seasonal_patterns : List (String × ℚ)
  time_gap_distribution : TimeGapDistribution
  ordering_acceleration : ℚ
deriving DecidableEq, Repr

structure VoucherImpact where
  avg_savings_with_voucher : ℚ
  avg_order_value_with_voucher : ℚ
  avg_order_value_without_voucher : ℚ
deriving DecidableEq, Repr

structure DeliveryFeeVariance where
  min : ℚ
  max : ℚ
  avg : ℚ
deriving DecidableEq, Repr

structure CostOptimizationAnalytics where
  fee_to_food_ratio : ℚ
  average_fee_percentage : ℚ
  optimal_order_value : ℚ
  voucher_impact : VoucherImpact
  delivery_fee_variance : DeliveryFeeVariance
  potential_savings : ℚ
deriving DecidableEq, Repr

structure MealTypeDistribution where
  breakfast : Nat
  lunch : Nat
  dinner : Nat
  snack : Nat
deriving DecidableEq, Repr

structure HealthDietaryAnalytics where
  healthy_vs_indulgent_ratio : ℚ
  meal_type_distribution : MealTypeDistribution
  drink_to_food_ratio : ℚ
  healthy_food_percentage : ℚ
  indulgent_food_percentage : ℚ
  category_health_scores : List (String × ℚ)
deriving DecidableEq, Repr

structure PredictiveAnalytics where
  forecasted_monthly_spending : ℚ
  spending_trend : String      -- "increasing" | "decreasing" | "stable"
  trend_percentage : ℚ
  predicted_next_order_days : ℚ
  estimated_annual_spending : ℚ
deriving DecidableEq, Repr

structure ExplorationVsExploitation where
  exploration_percentage : ℚ
  exploitation_percentage : ℚ
deriving DecidableEq, Repr

structure AdvancedMetrics where
  customer_lifetime_value : ℚ
  order_efficiency_score : ℚ
  brand_loyalty_score : ℚ
  spontaneity_index : Option ℚ
  deal_dependency_ratio : ℚ
  churn_risk_score : ℚ
  exploration_vs_exploitation : ExplorationVsExploitation
deriving DecidableEq, Repr

structure ComparativeMetrics where
  spending_percentile : ℚ
  order_frequency_category : String
  value_consciousness_score : ℚ
deriving DecidableEq, Repr

structure Insight where
  category : String
  icon : String
  title : String
  description : String
  detailedExplanation : String
  color : String
deriving DecidableEq, Repr

structure FullAnalytics where
  spending : SpendingAnalytics
  restaurants : RestaurantAnalytics
  food : FoodAnalytics
  patterns : PatternAnalytics
  payments : PaymentAnalytics
  prices : PriceAnalytics
  behavior : OrderBehaviorAnalytics
  diversity : DiversityAnalytics
  timeAnalysis : TimeAnalytics
  costOptimization : CostOptimizationAnalytics
  healthDietary : HealthDietaryAnalytics
  predictive : PredictiveAnalytics
  advanced : AdvancedMetrics
  comparative : ComparativeMetrics
  insights : List Insight
deriving DecidableEq, Repr

/-- `foodCategories` from src/lib/constants.ts. -/
def foodCategories : List (String × List String) :=
  [ ("Burger", ["burger", "beef burger", "chicken burger"]),
    ("Pizza", ["pizza"]),
    ("Rice/Biriyani", ["rice", "biriyani", "biryani", "kacchi", "khichuri", "polao"]),
    ("Chicken", ["chicken", "grilled chicken", "fried chicken", "wings"]),
    ("Fast Food", ["fries", "sandwich", "wrap", "sub", "shawarma", "taco", "nachos"]),
    ("Drinks", ["coke", "pepsi", "juice", "water", "drink", "faluda", "shake", "smoothie", "coffee", "tea"]),
    ("Dessert", ["ice cream", "cake", "dessert", "sweet", "kulfi", "waffle", "donut", "cookie", "brownie"]),
    ("Pasta", ["pasta", "spaghetti", "lasagna", "macaroni"]),
    ("Healthy", ["salad", "soup", "veg", "fruit"]) ]

/-!  Shared statistics helpers of the service (bottom of
analytics.service.ts). -/

/-- `calculateMedian(values)`: middle of the ascending numeric sort, mean
of the two middles on even length, 0 on empty input.
`values.sort((a, b) => a - b)` is a stable ascending sort, modelled by
`insertionSort (· ≤ ·)`. -/
def calculateMedian (values : List ℚ) : ℚ :=
  if values.isEmpty then 0
  else
    let sorted := values.insertionSort (· ≤ ·)
    let mid := sorted.length / 2
    if sorted.length % 2 ≠ 0 then sorted.getD mid 0
    else (sorted.getD (mid - 1) 0 + sorted.getD mid 0) / 2

/-- `calculateVariance(values)` (population variance), over JS numbers that
may be NaN (`none`); any NaN input makes every mean/square NaN. -/
def calculateVariance (values : List (Option ℚ)) : Option ℚ :=
  if values.isEmpty then some 0
  else
    match values.mapM id with
    | none => none
    | some vs =>
      let m := vs.sum / (vs.length : ℚ)
      some ((vs.map (fun v => (v - m) * (v - m))).sum / (vs.length : ℚ))

/-- `getTopN(record, n)`: entries sorted by count descending (stable, so
ties keep object iteration order) and truncated to `n`. -/
def getTopN (record : List (String × Nat)) (n : Nat) : List (String × Nat) :=
  (record.insertionSort (fun x y => y.2 ≤ x.2)).take n

/-- `parseInt` on the decimal / "NaN" keys produced here. -/
def jsParseIntNat (s : String) : Option Nat := digitsToNat s.data

/-!  The facet analyzers (analytics.service.ts). -/

/-- `categorizeSpending(avg)`. -/
def categorizeSpending (avg : ℚ) : SpendingCategory :=
  if avg > 400 then
    { type := "Big Spender", description := "You love premium food", color := "#e74c3c" }
  else if avg > 250 then
    { type := "Medium Spender", description := "Balanced spending", color := "#f39c12" }
  else
    { type := "Light Spender", description := "You save money", color := "#27ae60" }

/-- `analyzeSpending(orders)`. -/
def analyzeSpending (orders : List Order) : SpendingAnalytics :=
  let totalSpent := sumBy Order.total_value orders
  let avgOrderValue := totalSpent / (orders.length : ℚ)
  let medianOrderValue := calculateMedian (orders.map Order.total_value)
  let monthlySpending := groupByKey monthKey orders
  let monthlySpendingTotal := monthlySpending.map (fun p => (p.1, sumBy Order.total_value p.2))
  let voucherOrders := orders.filter (fun o => o.voucher_discount > 0)
  let voucherUsageRate := ((voucherOrders.length : ℚ) / (orders.length : ℚ)) * 100
  { total_spent := totalSpent,
    average_order_value := avgOrderValue,
    median_order_value := medianOrderValue,
    total_delivery_fees := sumBy Order.delivery_fee orders,
    total_service_fees := sumBy Order.service_fee orders,
    total_voucher_savings := sumBy Order.voucher_discount orders,
    voucher_usage_rate := voucherUsageRate,
    monthly_spending := monthlySpendingTotal,
    spending_category := categorizeSpending avgOrderValue }

/-- `analyzeRestaurants(orders)`. -/
def analyzeRestaurants (orders : List Order) : RestaurantAnalytics :=
  let restaurantCounts := countByStr (orders.map Order.restaurant_name)
  let topRestaurants := getTopN restaurantCounts 10
  -- Object.keys(topRestaurants)[0] || ""
  let topRestName := (topRestaurants.map Prod.fst).headD ""
  -- topRestaurants[topRestName] || 0
  let topRestCount := (assocFind topRestaurants topRestName).getD 0
  let loyaltyPct := ((topRestCount : ℚ) / (orders.length : ℚ)) * 100
  let (loyaltyLevel, desc) :=
    if loyaltyPct > 30 then ("Super Loyal", "You have a favorite place")
    else if loyaltyPct > 15 then ("Loyal", "You like some places more")
    else ("Explorer", "You try many places")
  { top_restaurants_by_orders := topRestaurants,
    unique_restaurants := restaurantCounts.length,
    loyalty_analysis :=
      { level := loyaltyLevel, description := desc,
        top_restaurant := topRestName, top_restaurant_percentage := loyaltyPct } }

/-- `analyzeFood(orders)`. -/
def analyzeFood (orders : List Order) : FoodAnalytics :=
  let allItems := (orders.map (fun o => o.items.map (fun i => jsTrim (jsToLower i.name)))).flatten
  let itemCounts := countByStr allItems
  -- categories with zero matches are omitted from the map
  let categoriesCount := foodCategories.foldl
    (fun acc p =>
      let count := (allItems.filter (fun item => p.2.any (fun k => strIncludes item k))).length
      if count > 0 then acc ++ [(p.1, count)] else acc)
    []
  { top_food_items := getTopN itemCounts 15,
    food_categories := categoriesCount,
    average_items_per_order := (allItems.length : ℚ) / (orders.length : ℚ),
    total_unique_items := itemCounts.length }

def dayNames : List String :=
  ["Sunday", "Monday", "Tuesday", "Wednesday", "Thursday", "Friday", "Saturday"]

/-- `toLocaleDateString('en-US', { weekday: 'long' })`, which renders an
invalid date as "Invalid Date". -/
def weekdayLongName (d : Option Nat) : String :=
  match d with
  | some n => dayNames.getD n "Invalid Date"
  | none => "Invalid Date"

/-- `_.countBy(hours)`: a JS object keyed by the decimal hour strings
(integer-like keys iterate in ascending numeric order) with a possible
trailing "NaN" key (a non-integer key iterates after them). -/
def hourlyPatternsOf (hs : List (Option Nat)) : List (String × Nat) :=
  ((List.range 24).filterMap (fun h =>
      let c := hs.count (some h)
      if c > 0 then some (natToStr h, c) else none))
    ++ (let cNaN := hs.count none
        if cNaN > 0 then [("NaN", cNaN)] else [])

/-- `analyzePatterns(orders)`.  The weekend filter callback returns at its
first statement, `day === 5 || day === 6` (the Friday/Saturday test); the
rest of the callback, including the `return day === 0 || day === 6`
written after the "stick to standard Sat/Sun" comment, is unreachable.
A NaN weekday compares false against both 5 and 6. -/
def analyzePatterns (orders : List Order) : PatternAnalytics :=
  let hours := orders.map jsGetHours
  let days := orders.map (fun o => weekdayLongName (jsGetDay o))
  let hourlyPatterns := hourlyPatternsOf hours
  let dayPatterns := countByStr days
  let peakHour := jsParseIntNat (jsReduceMaxKey hourlyPatterns "0")
  let peakDay := jsReduceMaxKey dayPatterns ""
  let weekendOrders :=
    (orders.filter (fun o =>
      match jsGetDay o with
      | some day => day == 5 || day == 6
      | none => false)).length
  { peak_hour := peakHour,
    peak_day := peakDay,
    weekend_vs_weekday :=
      { weekend_orders := weekendOrders,
        weekday_orders := orders.length - weekendOrders,
        weekend_percentage := ((weekendOrders : ℚ) / (orders.length : ℚ)) * 100 },
    hourly_patterns := hourlyPatterns }

/-- `analyzePayments(orders)`. -/
def analyzePayments (orders : List Order) : PaymentAnalytics :=
  let counts := countByStr (orders.map Order.payment_method)
  { payment_method_counts := counts,
    preferred_payment_method := jsReduceMaxKey counts "N/A" }

def qListMin : List ℚ → ℚ
  | [] => 0     -- Math.min() of an empty spread is Infinity; every caller passes a non-empty list
  | h :: t => t.foldl min h

def qListMax : List ℚ → ℚ
  | [] => 0
  | h :: t => t.foldl max h

/-- `analyzePrices(orders)`. -/
def analyzePrices (orders : List Order) : PriceAnalytics :=
  let allItems := (orders.map Order.items).flatten
  let totalItems := (allItems.map OrderItem.quantity).sum
  let totalItemCost := sumBy (fun i => i.price * (i.quantity : ℚ)) allItems
  let avgPricePerItem := if totalItems > 0 then totalItemCost / (totalItems : ℚ) else 0
  let itemPrices := allItems.map OrderItem.price
  let priceRange : PriceRange :=
    { min := if itemPrices.length > 0 then qListMin itemPrices else 0,
      max := if itemPrices.length > 0 then qListMax itemPrices else 0 }
  let restaurantOrders := groupByKey Order.restaurant_name orders
  let restaurantValueScores :=
    restaurantOrders.map (fun p => (p.1, meanQ (p.2.map Order.total_value)))
  let voucherOrders := orders.filter (fun o => o.voucher_discount > 0)
  let discountEffectiveness :=
    if voucherOrders.length > 0 then meanQ (voucherOrders.map Order.voucher_discount) else 0
  let monthlyOrders := groupByKey monthKey orders
  let priceTrendOverTime := monthlyOrders.map (fun p =>
    let monthItems := (p.2.map Order.items).flatten
    let monthTotalItems := (monthItems.map OrderItem.quantity).sum
    let monthTotalCost := sumBy (fun i => i.price * (i.quantity : ℚ)) monthItems
    (p.1, if monthTotalItems > 0 then monthTotalCost / (monthTotalItems : ℚ) else 0))
  { average_price_per_item := avgPricePerItem,
    price_range := priceRange,
    restaurant_value_scores := restaurantValueScores,
    discount_effectiveness := discountEffectiveness,
    price_trend_over_time := priceTrendOverTime }

/-- Summed item quantity of one order. -/
def orderItemCount (o : Order) : Nat := (o.items.map OrderItem.quantity).sum

/-- The per-order reorder signature:
`order.items.map(i => i.name.toLowerCase().trim()).sort().join('|')`.
Every item line contributes, duplicates included; `.sort()` on strings is
the default lexicographic (UTF-16) ascending sort. -/
def orderSignature (o : Order) : String :=
  joinPipe ((o.items.map (fun i => jsTrim (jsToLower i.name))).insertionSort
    (fun a b => strLeB a b = true))

def behaviorDrinkKeywords : List String :=
  ["coke", "pepsi", "juice", "water", "drink", "shake", "coffee", "tea"]

def behaviorDessertKeywords : List String :=
  ["ice cream", "cake", "dessert", "sweet", "waffle", "donut"]

/-- `analyzeOrderBehavior(orders)`.  The size-distribution forEach is an
if / else-if / else chain, so each order increments exactly one bucket. -/
def analyzeOrderBehavior (orders : List Order) : OrderBehaviorAnalytics :=
  let small := orders.countP (fun o => orderItemCount o ≤ 2)
  let medium := orders.countP (fun o => ¬(orderItemCount o ≤ 2) ∧ orderItemCount o ≤ 5)
  let large := orders.countP (fun o => ¬(orderItemCount o ≤ 2) ∧ ¬(orderItemCount o ≤ 5))
  let avgBasketSize := ((orders.map orderItemCount).sum : ℚ) / (orders.length : ℚ)
  -- addon detection lowercases but does not trim
  let ordersWithDrinks := orders.countP (fun o =>
    (o.items.map (fun i => jsToLower i.name)).any
      (fun name => behaviorDrinkKeywords.any (fun k => strIncludes name k)))
  let ordersWithDesserts := orders.countP (fun o =>
    (o.items.map (fun i => jsToLower i.name)).any
      (fun name => behaviorDessertKeywords.any (fun k => strIncludes name k)))
  let itemSignatures := orders.map orderSignature
  let signatureCounts := countByStr itemSignatures
  let exactReorderCount := (signatureCounts.filter (fun p => p.2 > 1)).length
  let allItems := (orders.map (fun o => o.items.map (fun i => jsTrim (jsToLower i.name)))).flatten
  let itemCounts := countByStr allItems
  let reorderedItems :=
    (((itemCounts.filter (fun p => p.2 > 2)).insertionSort (fun x y => y.2 ≤ x.2)).take 10)
  { order_size_distribution := { small := small, medium := medium, large := large },
    average_basket_size := avgBasketSize,
    addon_frequency :=
      { drinks_percentage := ((ordersWithDrinks : ℚ) / (orders.length : ℚ)) * 100,
        desserts_percentage := ((ordersWithDesserts : ℚ) / (orders.length : ℚ)) * 100 },
    reorder_patterns :=
      { exact_reorder_count := exactReorderCount,
        similar_items_frequency := reorderedItems } }

def zeroDiversity : DiversityAnalytics :=
  { cuisine_switching_rate := 0, new_restaurants_per_month := [],
    restaurant_discovery_rate := 0, cuisine_preference_evolution := [],
    variety_score := 0 }

/-- Adjacent pairs with a restaurant change. -/
def countSwitches : List Order → Nat
  | [] => 0
  | [_] => 0
  | a :: b :: t =>
    (if b.restaurant_name ≠ a.restaurant_name then 1 else 0) + countSwitches (b :: t)

/-- One step of the new-restaurants forEach of `analyzeDiversity`: the
month key comes from `toISOString` and is computed before the seen-check,
so an invalid date raises even for an already-seen restaurant.  The
accumulator carries (monthlyNewRestaurants, seenRestaurants). -/
def diversityNewRestaurantsStep (acc : List (String × Nat) × List String) (o : Order) :
    Except JsError (List (String × Nat) × List String) := do
  let month ← toISOMonth o
  if acc.2.contains o.restaurant_name then pure acc
  else pure (upsertNat acc.1 month 1, acc.2 ++ [o.restaurant_name])

/-- `analyzeDiversity(orders)`. -/
def analyzeDiversity (orders : List Order) : Except JsError DiversityAnalytics :=
  if orders.length < 2 then .ok zeroDiversity
  else do
    let switches := countSwitches orders
    let cuisineSwitchingRate := ((switches : ℚ) / ((orders.length : ℚ) - 1)) * 100
    let (monthlyNewRestaurants, seenRestaurants) ←
      orders.foldlM diversityNewRestaurantsStep ([], [])
    let discoveryRate :=
      if monthlyNewRestaurants.length > 0 then
        meanQ (monthlyNewRestaurants.map (fun p => (p.2 : ℚ)))
      else 0
    let monthlyRestaurants ← groupByKeyM toISOMonth orders
    let cuisinePreferenceEvolution :=
      monthlyRestaurants.map (fun p => (p.1, countByStr (p.2.map Order.restaurant_name)))
    let uniqueRestaurants := seenRestaurants.length
    let varietyScore := min 100 (((uniqueRestaurants : ℚ) / (orders.length : ℚ)) * 100 * 2)
    pure { cuisine_switching_rate := cuisineSwitchingRate,
           new_restaurants_per_month := monthlyNewRestaurants,
           restaurant_discovery_rate := discoveryRate,
           cuisine_preference_evolution := cuisinePreferenceEvolution,
           variety_score := varietyScore }

def zeroTimeAnalytics : TimeAnalytics :=
  { order_frequency_trend := [], average_days_between_orders := 0,
    spending_by_day_of_week := [], seasonal_patterns := [],
    time_gap_distribution := { same_day := 0, within_week := 0, within_month := 0, over_month := 0 },
    ordering_acceleration := 0 }

/-- `dayNames[new Date(order.date).getDay()]`; an out-of-range (NaN) index
is `undefined`, unreachable here because `toISOString` raised earlier. -/
def dayNameIdx (d : Option Nat) : String :=
  match d with
  | some n => dayNames.getD n "undefined"
  | none => "undefined"

/-- The seasonal key `` `${date.getFullYear()}-Q${quarter}` `` with
`quarter = Math.floor(date.getMonth() / 3) + 1` (getMonth is 0-based);
the invalid-date rendering is unreachable here (`toISOString` raised). -/
def quarterKey (o : Order) : String :=
  match jsParseDate o.date with
  | none => "NaN-QNaN"
  | some d => intToStr d.year ++ "-Q" ++ natToStr ((d.month - 1) / 3 + 1)

/-- Consecutive date gaps in (fractional) days. -/
def daysBetweenList : List Order → List ℚ
  | [] => []
  | [_] => []
  | a :: b :: t =>
    (((getTimeD b - getTimeD a : Int) : ℚ) / 86400000) :: daysBetweenList (b :: t)

/-- `analyzeTimePatterns(orders)`.  `monthlyFrequency` is computed first
and raises on the first invalid date, so everything after it sees valid
dates only. -/
def analyzeTimePatterns (orders : List Order) : Except JsError TimeAnalytics :=
  if orders.isEmpty then .ok zeroTimeAnalytics
  else do
    let monthlyFrequency ← countByKeyM toISOMonth orders
    let daysBetween := daysBetweenList orders
    let avgDaysBetween := if daysBetween.length > 0 then meanQ daysBetween else 0
    let spendingByDay :=
      orders.foldl (fun acc o => upsertQ acc (dayNameIdx (jsGetDay o)) o.total_value) []
    let seasonalSpending :=
      orders.foldl (fun acc o => upsertQ acc (quarterKey o) o.total_value) []
    let timeGaps := daysBetween.foldl
      (fun (g : TimeGapDistribution) days =>
        if days < 1 then { g with same_day := g.same_day + 1 }
        else if days ≤ 7 then { g with within_week := g.within_week + 1 }
        else if days ≤ 30 then { g with within_month := g.within_month + 1 }
        else { g with over_month := g.over_month + 1 })
      { same_day := 0, within_week := 0, within_month := 0, over_month := 0 }
    let midPoint := orders.length / 2
    let orderingAcceleration :=
      if midPoint > 0 then
        let firstHalfDays :=
          ((getTimeD (orders.getD midPoint defaultOrder)
            - getTimeD (orders.getD 0 defaultOrder) : Int) : ℚ) / 86400000
        let secondHalfDays :=
          ((getTimeD (orders.getD (orders.length - 1) defaultOrder)
            - getTimeD (orders.getD midPoint defaultOrder) : Int) : ℚ) / 86400000
        let firstHalfFreq := if firstHalfDays > 0 then (midPoint : ℚ) / firstHalfDays else 0
        let secondHalfFreq :=
          if secondHalfDays > 0 then ((orders.length - midPoint : Nat) : ℚ) / secondHalfDays else 0
        if firstHalfFreq > 0 then ((secondHalfFreq - firstHalfFreq) / firstHalfFreq) * 100 else 0
      else 0
    pure { order_frequency_trend := monthlyFrequency,
           average_days_between_orders := avgDaysBetween,
           spending_by_day_of_week := spendingByDay,
           seasonal_patterns := seasonalSpending,
           time_gap_distribution := timeGaps,
           ordering_acceleration := orderingAcceleration }

/-- `analyzeCostOptimization(orders)`. -/
def analyzeCostOptimization (orders : List Order) : CostOptimizationAnalytics :=
  let totalSpent := sumBy Order.total_value orders
  let totalFees := sumBy (fun o => o.delivery_fee + o.service_fee) orders
  let totalFood := totalSpent - totalFees
  let feeToFoodRatio := if totalFood > 0 then (totalFees / totalFood) * 100 else 0
  let avgFeePercentage := if totalSpent > 0 then (totalFees / totalSpent) * 100 else 0
  let voucherOrders := orders.filter (fun o => o.voucher_discount > 0)
  let nonVoucherOrders := orders.filter (fun o => o.voucher_discount = 0)
  let voucherImpact : VoucherImpact :=
    { avg_savings_with_voucher :=
        if voucherOrders.length > 0 then meanQ (voucherOrders.map Order.voucher_discount) else 0,
      avg_order_value_with_voucher :=
        if voucherOrders.length > 0 then meanQ (voucherOrders.map Order.total_value) else 0,
      avg_order_value_without_voucher :=
        if nonVoucherOrders.length > 0 then meanQ (nonVoucherOrders.map Order.total_value) else 0 }
  let deliveryFees := orders.map Order.delivery_fee
  let deliveryFeeVariance : DeliveryFeeVariance :=
    { min := qListMin deliveryFees, max := qListMax deliveryFees, avg := meanQ deliveryFees }
  let optimalOrderValue := deliveryFeeVariance.avg * 10
  let suboptimalOrders := orders.filter (fun o => o.subtotal < optimalOrderValue)
  let potentialSavings := (suboptimalOrders.length : ℚ) * (deliveryFeeVariance.avg * (1 / 2))
  { fee_to_food_ratio := feeToFoodRatio,
    average_fee_percentage := avgFeePercentage,
    optimal_order_value := optimalOrderValue,
    voucher_impact := voucherImpact,
    delivery_fee_variance := deliveryFeeVariance,
    potential_savings := potentialSavings }

def healthHealthyKeywords : List String := ["salad", "soup", "veg", "fruit", "grilled"]
def healthIndulgentKeywords : List String := ["burger", "pizza", "fries", "cake", "ice cream", "fried"]
def healthDrinkKeywords : List String := ["coke", "pepsi", "juice", "water", "drink", "shake"]

/-- `analyzeHealthDietary(orders, patterns)` (the patterns argument is
accepted but unused by the source).  Item names are lowercased, not
trimmed.  A NaN hour fails every range check and lands in `snack`. -/
def analyzeHealthDietary (orders : List Order) (_patterns : PatternAnalytics) :
    HealthDietaryAnalytics :=
  let allItems := (orders.map (fun o => o.items.map (fun i => jsToLower i.name))).flatten
  let healthyCount :=
    (allItems.filter (fun i => healthHealthyKeywords.any (fun k => strIncludes i k))).length
  let indulgentCount :=
    (allItems.filter (fun i => healthIndulgentKeywords.any (fun k => strIncludes i k))).length
  let drinkCount :=
    (allItems.filter (fun i => healthDrinkKeywords.any (fun k => strIncludes i k))).length
  let totalItems := allItems.length
  let healthyPercentage :=
    if totalItems > 0 then ((healthyCount : ℚ) / (totalItems : ℚ)) * 100 else 0
  let indulgentPercentage :=
    if totalItems > 0 then ((indulgentCount : ℚ) / (totalItems : ℚ)) * 100 else 0
  let healthyVsIndulgentRatio :=
    if indulgentCount > 0 then (healthyCount : ℚ) / (indulgentCount : ℚ) else (healthyCount : ℚ)
  let mealTypes := orders.foldl
    (fun (m : MealTypeDistribution) o =>
      match jsGetHours o with
      | some h =>
        if 5 ≤ h ∧ h < 11 then { m with breakfast := m.breakfast + 1 }
        else if 11 ≤ h ∧ h < 16 then { m with lunch := m.lunch + 1 }
        else if 16 ≤ h ∧ h < 22 then { m with dinner := m.dinner + 1 }
        else { m with snack := m.snack + 1 }
      | none => { m with snack := m.snack + 1 })
    { breakfast := 0, lunch := 0, dinner := 0, snack := 0 }
  let drinkToFoodRatio :=
    if totalItems - drinkCount > 0 then (drinkCount : ℚ) / ((totalItems - drinkCount : Nat) : ℚ)
    else 0
  { healthy_vs_indulgent_ratio := healthyVsIndulgentRatio,
    meal_type_distribution := mealTypes,
    drink_to_food_ratio := drinkToFoodRatio,
    healthy_food_percentage := healthyPercentage,
    indulgent_food_percentage := indulgentPercentage,
    category_health_scores := [] }

/-- `Object.entries(spending.monthly_spending).sort()`: the default sort
stringifies each `[key, value]` pair ("YYYY-MM,total") and compares the
strings; keys are distinct, and the first differing character of two such
strings lies in (or right after) the key, so this equals a stable sort by
key. -/
def monthlySpendingEntries (spending : SpendingAnalytics) : List (String × ℚ) :=
  spending.monthly_spending.insertionSort (fun a b => strLeB a.1 b.1 = true)

/-- `.slice(-6)`. -/
def takeLast {α : Type} (n : Nat) (l : List α) : List α := l.drop (l.length - n)

def recentMonthsData (spending : SpendingAnalytics) : List (String × ℚ) :=
  takeLast 6 (monthlySpendingEntries spending)

/-- The raw (pre-clamp) trend percentage of `analyzePredictive`: the OLS
slope of the recent monthly totals against their index, normalised by
their mean, as a percentage; 0 when fewer than two recent months. -/
def rawTrendPct (spending : SpendingAnalytics) : ℚ :=
  let recent := recentMonthsData spending
  if recent.length ≥ 2 then
    let yValues := recent.map Prod.snd
    let n : ℚ := yValues.length
    let xValues := (List.range yValues.length).map (fun i => (i : ℚ))
    let sumX := xValues.sum
    let sumY := yValues.sum
    let sumXY := ((xValues.zip yValues).map (fun p => p.1 * p.2)).sum
    let sumXX := (xValues.map (fun x => x * x)).sum
    let slope := (n * sumXY - sumX * sumY) / (n * sumXX - sumX * sumX)
    let averageY := sumY / n
    if averageY ≠ 0 then (slope / averageY) * 100 else 0
  else 0

/-- `getFullYear()` and `getMonth()` (0-based) of an order; the NaN of an
invalid date is unreachable through `analyze` (the time analyzer raised
first), defaulted to 0 here. -/
def yearMonthD (o : Order) : Int × Int :=
  match jsParseDate o.date with
  | none => (0, 0)
  | some d => (d.year, (d.month : Int) - 1)

/-- `analyzePredictive(orders, spending, timeAnalysis)`. -/
def analyzePredictive (orders : List Order) (spending : SpendingAnalytics)
    (timeAnalysis : TimeAnalytics) : PredictiveAnalytics :=
  if orders.length < 2 then
    { forecasted_monthly_spending := spending.average_order_value,
      spending_trend := "stable",
      trend_percentage := 0,
      predicted_next_order_days := 7,
      estimated_annual_spending := spending.total_spent * 12 }
  else
    let fym := yearMonthD (orders.getD 0 defaultOrder)
    let lym := yearMonthD (orders.getD (orders.length - 1) defaultOrder)
    let monthDiff : Int := (lym.1 - fym.1) * 12 + (lym.2 - fym.2) + 1
    let activeMonths : ℚ := max 1 (monthDiff : ℚ)
    let lifetimeMonthlyAvg := spending.total_spent / activeMonths
    let recent := recentMonthsData spending
    let weightedSum := (recent.enum.map (fun p => p.2.2 * ((p.1 + 1 : Nat) : ℚ))).sum
    let totalWeight := (recent.enum.map (fun p => ((p.1 + 1 : Nat) : ℚ))).sum
    let recentWeightedAvg :=
      if recent.length > 0 then weightedSum / totalWeight else lifetimeMonthlyAvg
    let trendPercentage := rawTrendPct spending
    let cappedTrend := max (-15) (min 15 trendPercentage)
    let baseForecast := recentWeightedAvg * 0.7 + lifetimeMonthlyAvg * 0.3
    let forecastedMonthlySpending := baseForecast * (1 + cappedTrend / 100)
    let estimatedAnnualSpending := forecastedMonthlySpending * 12
    let spendingTrend :=
      if cappedTrend > 5 then "increasing"
      else if cappedTrend < -5 then "decreasing"
      else "stable"
    let predictedNextOrderDays := max 1 timeAnalysis.average_days_between_orders
    { forecasted_monthly_spending := forecastedMonthlySpending,
      spending_trend := spendingTrend,
      trend_percentage := cappedTrend,
      predicted_next_order_days := predictedNextOrderDays,
      estimated_annual_spending := estimatedAnnualSpending }

/-- `analyzeAdvancedMetrics(orders, restaurants, timeAnalysis, spending)`. -/
def analyzeAdvancedMetrics (orders : List Order) (restaurants : RestaurantAnalytics)
    (timeAnalysis : TimeAnalytics) (spending : SpendingAnalytics) : AdvancedMetrics :=
  let totalDays : ℚ :=
    if orders.length > 1 then
      ((getTimeD (orders.getD (orders.length - 1) defaultOrder)
        - getTimeD (orders.getD 0 defaultOrder) : Int) : ℚ) / 86400000
    else 30
  let dailyValue := spending.total_spent / max 1 totalDays
  let clv := dailyValue * 365
  let avgOrdersPerRestaurant := (orders.length : ℚ) / max 1 (restaurants.unique_restaurants : ℚ)
  let efficiencyScore := min 100 (avgOrdersPerRestaurant * 10)
  let loyaltyPct := restaurants.loyalty_analysis.top_restaurant_percentage
  let voucherUsage := spending.voucher_usage_rate
  let brandLoyaltyScore := min 100 (loyaltyPct * 0.6 + (100 - voucherUsage) * 0.4)
  let hours := orders.map (fun o => (jsGetHours o).map (fun h => (h : ℚ)))
  let hourVariance := if hours.length > 1 then calculateVariance hours else some 0
  let spontaneityIndex := hourVariance.map (fun v => min 100 (v / 50 * 100))
  let churnRiskScore : ℚ :=
    if timeAnalysis.ordering_acceleration < -20 then 80
    else if timeAnalysis.ordering_acceleration < 0 then 50
    else 20
  let restaurantCounts := countByStr (orders.map Order.restaurant_name)
  -- Math.max(...Object.values(restaurantCounts)); non-empty in every use
  let topRestaurantCount := (restaurantCounts.map Prod.snd).foldl max 0
  let exploitationPercentage := ((topRestaurantCount : ℚ) / (orders.length : ℚ)) * 100
  { customer_lifetime_value := clv,
    order_efficiency_score := efficiencyScore,
    brand_loyalty_score := brandLoyaltyScore,
    spontaneity_index := spontaneityIndex,
    deal_dependency_ratio := spending.voucher_usage_rate,
    churn_risk_score := churnRiskScore,
    exploration_vs_exploitation :=
      { exploration_percentage := 100 - exploitationPercentage,
        exploitation_percentage := exploitationPercentage } }

/-- `analyzeComparative(spending, timeAnalysis, costOptimization)`. -/
def analyzeComparative (spending : SpendingAnalytics) (timeAnalysis : TimeAnalytics)
    (costOptimization : CostOptimizationAnalytics) : ComparativeMetrics :=
  let avgMonthlySpending :=
    if spending.monthly_spending.length > 0 then
      meanQ (spending.monthly_spending.map Prod.snd)
    else spending.average_order_value * 4
  let spendingPercentile : ℚ :=
    if avgMonthlySpending > 30000 then 90
    else if avgMonthlySpending > 20000 then 75
    else if avgMonthlySpending > 15000 then 60
    else if avgMonthlySpending > 10000 then 45
    else 30
  let monthlyOrderFreq :=
    if timeAnalysis.order_frequency_trend.length > 0 then
      meanQ (timeAnalysis.order_frequency_trend.map (fun p => (p.2 : ℚ)))
    else 0
  let frequencyCategory :=
    if monthlyOrderFreq > 15 then "Heavy"
    else if monthlyOrderFreq > 8 then "Moderate"
    else "Light"
  let voucherScore := spending.voucher_usage_rate
  let feeScore := 100 - costOptimization.average_fee_percentage * 2
  { spending_percentile := spendingPercentile,
    order_frequency_category := frequencyCategory,
    value_consciousness_score := voucherScore * 0.6 + max 0 feeScore * 0.4 }

/-- `toFixed` rounding: half away from zero. -/
def qRound (q : ℚ) : Int :=
  if 0 ≤ q then (q + 1 / 2).floor else -((-q + 1 / 2).floor)

/-- `Number.prototype.toFixed(0)`. -/
def jsToFixed0 (q : ℚ) : String := intToStr (qRound q)

/-- `Number.prototype.toFixed(1)`. -/
def jsToFixed1 (q : ℚ) : String :=
  let n := qRound (q * 10)
  (if n < 0 then "-" else "")
    ++ natToStr (n.natAbs / 10) ++ "." ++ natToStr (n.natAbs % 10)

/-- `${hour}` rendering of the possibly-NaN peak hour. -/
def numOptToStr : Option Nat → String
  | some n => natToStr n
  | none => "NaN"

/-- `generateInsights(...)`: the source body reads only `spending`,
`restaurants` and `patterns`.  Narrative strings containing the U+0027
apostrophe are reproduced with the contraction spelled out ("are not" for
the contracted form, and so on); no claim concerns these strings.  The
"Flexible Eater" initial values of the timing insight are dead: the
if / else-if / else chain that follows always overwrites them.  A NaN peak
hour fails every range test and falls into the final (night) branch. -/
def generateInsights (spending : SpendingAnalytics) (restaurants : RestaurantAnalytics)
    (patterns : PatternAnalytics) (_costOptimization : CostOptimizationAnalytics)
    (_predictive : PredictiveAnalytics) (_advanced : AdvancedMetrics)
    (_healthDietary : HealthDietaryAnalytics) (_diversity : DiversityAnalytics) :
    List Insight :=
  let spendingInsight : Insight :=
    { category := "spending", icon := "💰",
      title := spending.spending_category.type,
      description := spending.spending_category.description,
      detailedExplanation :=
        "Your average order is ৳" ++ jsToFixed0 spending.average_order_value ++ ". " ++
        (if spending.spending_category.type = "Big Spender" then
          "You enjoy premium meals and are not afraid to spend more for quality food."
        else if spending.spending_category.type = "Medium Spender" then
          "You balance between quality and budget, ordering moderately priced meals."
        else
          "You prefer budget-friendly options and focus on value for money."),
      color := spending.spending_category.color }
  let voucherInsights : List Insight :=
    if spending.voucher_usage_rate > 20 then
      let voucherTitle :=
        if spending.voucher_usage_rate > 50 then "Smart Saver" else "Deal Hunter"
      [{ category := "voucher", icon := "🎫", title := voucherTitle,
         description :=
           "You used vouchers " ++ jsToFixed0 spending.voucher_usage_rate
             ++ "% of the time",
         detailedExplanation :=
           "You saved a total of ৳" ++ jsToFixed0 spending.total_voucher_savings
             ++ " by using vouchers on " ++ jsToFixed1 spending.voucher_usage_rate
             ++ "% of your orders. That is smart shopping! Keep looking for deals to save even more.",
         color := "#9b59b6" }]
    else []
  let hour := patterns.peak_hour
  let hourInRange : Nat → Nat → Bool := fun lo hi =>
    match hour with
    | some h => lo ≤ h && h < hi
    | none => false
  let timing :=
    if hourInRange 5 12 then
      ("Morning Person", "🌞", "You order early in the day",
       "You usually order around " ++ numOptToStr hour
         ++ ":00. You are an early bird who likes breakfast and brunch. Morning meals give you energy for the day.")
    else if hourInRange 12 17 then
      ("Lunch Lover", "🍲", "You order at lunch time",
       "Your peak time is " ++ numOptToStr hour
         ++ ":00. You prefer ordering during lunch hours. This is the most popular time to order food.")
    else if hourInRange 17 22 then
      ("Evening Eater", "🌆", "You order for dinner",
       "You typically order around " ++ numOptToStr hour
         ++ ":00. Evening is your main meal time, when you relax and enjoy dinner.")
    else
      ("Night Owl", "🌙", "You order late at night",
       "You order around " ++ numOptToStr hour
         ++ ":00. You are a night person who gets hungry late. Late-night ordering is your thing!")
  let timingInsight : Insight :=
    { category := "timing", icon := timing.2.1, title := timing.1,
      description := timing.2.2.1, detailedExplanation := timing.2.2.2,
      color := "#3498db" }
  let topRestaurant :=
    if restaurants.loyalty_analysis.top_restaurant = "" then "various places"
    else restaurants.loyalty_analysis.top_restaurant
  let loyaltyPct := restaurants.loyalty_analysis.top_restaurant_percentage
  let loyaltyDetail :=
    if restaurants.loyalty_analysis.level = "Super Loyal" then
      jsToFixed0 loyaltyPct ++ "% of your orders are from " ++ topRestaurant
        ++ ". You really love this place! Having a favorite restaurant means you know what you like."
    else if restaurants.loyalty_analysis.level = "Loyal" then
      jsToFixed0 loyaltyPct ++ "% of orders from " ++ topRestaurant
        ++ ". You have some favorites but also like trying other places. Good balance!"
    else
      "You order from " ++ natToStr restaurants.unique_restaurants
        ++ " different restaurants. You love variety and trying new places. That is adventurous!"
  let loyaltyInsight : Insight :=
    { category := "loyalty", icon := "❤️",
      title := restaurants.loyalty_analysis.level,
      description := restaurants.loyalty_analysis.description,
      detailedExplanation := loyaltyDetail,
      color := "#e67e22" }
  [spendingInsight] ++ voucherInsights ++ [timingInsight, loyaltyInsight]

/-- `getEmptyAnalytics()`. -/
def getEmptyAnalytics : FullAnalytics :=
  { spending :=
      { total_spent := 0, average_order_value := 0, median_order_value := 0,
        total_delivery_fees := 0, total_service_fees := 0, total_voucher_savings := 0,
        voucher_usage_rate := 0, monthly_spending := [],
        spending_category := { type := "N/A", description := "No data", color := "gray" } },
    restaurants :=
      { top_restaurants_by_orders := [], unique_restaurants := 0,
        loyalty_analysis :=
          { level := "N/A", description := "No data", top_restaurant := "",
            top_restaurant_percentage := 0 } },
    food :=
      { top_food_items := [], food_categories := [], average_items_per_order := 0,
        total_unique_items := 0 },
    patterns :=
      { peak_hour := some 0, peak_day := "",
        weekend_vs_weekday :=
          { weekend_orders := 0, weekday_orders := 0, weekend_percentage := 0 },
        hourly_patterns := [] },
    payments := { payment_method_counts := [], preferred_payment_method := "N/A" },
    prices :=
      { average_price_per_item := 0, price_range := { min := 0, max := 0 },
        restaurant_value_scores := [], discount_effectiveness := 0,
        price_trend_over_time := [] },
    behavior :=
      { order_size_distribution := { small := 0, medium := 0, large := 0 },
        average_basket_size := 0,
        addon_frequency := { drinks_percentage := 0, desserts_percentage := 0 },
        reorder_patterns := { exact_reorder_count := 0, similar_items_frequency := [] } },
    diversity := zeroDiversity,
    timeAnalysis := zeroTimeAnalytics,
    costOptimization :=
      { fee_to_food_ratio := 0, average_fee_percentage := 0, optimal_order_value := 0,
        voucher_impact :=
          { avg_savings_with_voucher := 0, avg_order_value_with_voucher := 0,
            avg_order_value_without_voucher := 0 },
        delivery_fee_variance := { min := 0, max := 0, avg := 0 },
        potential_savings := 0 },
    healthDietary :=
      { healthy_vs_indulgent_ratio := 0,
        meal_type_distribution := { breakfast := 0, lunch := 0, dinner := 0, snack := 0 },
        drink_to_food_ratio := 0, healthy_food_percentage := 0,
        indulgent_food_percentage := 0, category_health_scores := [] },
    predictive :=
      { forecasted_monthly_spending := 0, spending_trend := "stable",
        trend_percentage := 0, predicted_next_order_days := 0,
        estimated_annual_spending := 0 },
    advanced :=
      { customer_lifetime_value := 0, order_efficiency_score := 0,
        brand_loyalty_score := 0, spontaneity_index := some 0,
        deal_dependency_ratio := 0, churn_risk_score := 0,
        exploration_vs_exploitation :=
          { exploration_percentage := 0, exploitation_percentage := 0 } },
    comparative :=
      { spending_percentile := 50, order_frequency_category := "N/A",
        value_consciousness_score := 0 },
    insights := [] }

/-- The status filter of `analyze`. -/
def deliveredFilterFn (o : Order) : Bool :=
  !(strIncludes (jsToLower o.status) "cancel")
    && !(strIncludes (jsToLower o.status) "fail")

def deliveredOrdersOf (orders : List Order) : List Order :=
  orders.filter deliveredFilterFn

/-- `analyze(orders)`, the sole entry point.  The chronological sort
compares `getTime()` values; a NaN comparison can only involve an order
whose invalid date makes the diversity / time passes raise the same
`RangeError` regardless of where the sort placed it, so defaulting the
unreachable NaN timestamp to 0 in the comparator is observationally
faithful. -/
def analyze (orders : List Order) : Except JsError FullAnalytics := do
  let deliveredOrders := deliveredOrdersOf orders
  if deliveredOrders.isEmpty then
    return getEmptyAnalytics
  let sortedOrders := deliveredOrders.insertionSort (fun a b => getTimeD a ≤ getTimeD b)
  let spending := analyzeSpending deliveredOrders
  let restaurants := analyzeRestaurants deliveredOrders
  let food := analyzeFood deliveredOrders
  let patterns := analyzePatterns deliveredOrders
  let payments := analyzePayments deliveredOrders
  let prices := analyzePrices sortedOrders
  let behavior := analyzeOrderBehavior deliveredOrders
  let diversity ← analyzeDiversity sortedOrders
  let timeAnalysis ← analyzeTimePatterns sortedOrders
  let costOptimization := analyzeCostOptimization deliveredOrders
  let healthDietary := analyzeHealthDietary deliveredOrders patterns
  let predictive := analyzePredictive sortedOrders spending timeAnalysis
  let advanced := analyzeAdvancedMetrics sortedOrders restaurants timeAnalysis spending
  let comparative := analyzeComparative spending timeAnalysis costOptimization
  let insights := generateInsights spending restaurants patterns costOptimization
    predictive advanced healthDietary diversity
  return { spending := spending, restaurants := restaurants, food := food,
           patterns := patterns, payments := payments, prices := prices,
           behavior := behavior, diversity := diversity, timeAnalysis := timeAnalysis,
           costOptimization := costOptimization, healthDietary := healthDietary,
           predictive := predictive, advanced := advanced, comparative := comparative,
           insights := insights }

/-!  Concrete orders used by the claim theorems, their witnesses and
counterexamples. -/

/-- A delivered order placed on Saturday 2024-01-06. -/
def ordSat : Order :=
  { defaultOrder with
      id := "ord-sat"
      date := "2024-01-06"
      status := "Delivered"
      restaurant_name := "A"
      total_value := 300 }

/-- A delivered order placed on Tuesday 2024-01-09. -/
def ordTue : Order :=
  { defaultOrder with
      id := "ord-tue"
      date := "2024-01-09"
      status := "Delivered"
      restaurant_name := "A"
      total_value := 200 }

/-- A delivered order placed on Sunday 2024-01-07. -/
def ordSun : Order :=
  { defaultOrder with
      id := "ord-sun"
      date := "2024-01-07"
      status := "Delivered"
      restaurant_name := "A"
      total_value := 100 }

/-- A delivered order placed on Friday 2024-01-05. -/
def ordFri : Order :=
  { defaultOrder with
      id := "ord-fri"
      date := "2024-01-05"
      status := "Delivered"
      restaurant_name := "A"
      total_value := 100 }

/-!  Claim theorems. -/

/-- C1: the spec claims an order is counted in `weekend_orders` exactly
when its weekday is Saturday or Sunday.  The code disagrees: the filter
callback returns at its first statement, `day === 5 || day === 6`
(Friday/Saturday), and the `return day === 0 || day === 6` written after
the "stick to standard Sat/Sun" comment is dead code, so a Sunday order is
not counted as weekend while a Friday order is.  This theorem evaluates
the code at the failing inputs: 2024-01-07 is a Sunday (weekday 0) yet
contributes 0 weekend orders, and 2024-01-05 is a Friday (weekday 5) yet
contributes 1.  The Saturday/Tuesday example of the claim nevertheless
holds (Saturday is weekend under both conventions). -/
theorem analyzePatterns_weekend_uses_friday_saturday :
    (jsParseDate "2024-01-07").map jsDateDay = some 0 ∧
    (jsParseDate "2024-01-05").map jsDateDay = some 5 ∧
    (analyzePatterns [ordSun]).weekend_vs_weekday.weekend_orders = 0 ∧
    (analyzePatterns [ordFri]).weekend_vs_weekday.weekend_orders = 1 ∧
    (analyzePatterns [ordSat, ordTue]).weekend_vs_weekday =
      { weekend_orders := 1, weekday_orders := 1, weekend_percentage := 50 } := by
  decide

/-- C2 (counterexample): the claim says an average of exactly 250.00
classifies as "Medium Spender"; under the strict greater-than thresholds
of `categorizeSpending` (250 > 250 is false) it classifies as
"Light Spender". -/
theorem categorizeSpending_250_is_light_not_medium :
    (categorizeSpending 250).type = "Light Spender" ∧
    ¬ (categorizeSpending 250).type = "Medium Spender" := by
  decide

/-- C2 (amended): categorizeSpending classifies with strict greater-than
thresholds evaluated in order (> 400 → "Big Spender", > 250 →
"Medium Spender", else "Light Spender"); an average of exactly 250.00
classifies as "Light Spender" (not "Medium"), and 400.01 classifies as
"Big Spender". -/
theorem categorizeSpending_strict_thresholds :
    (∀ avg : ℚ, (categorizeSpending avg).type =
      if avg > 400 then "Big Spender"
      else if avg > 250 then "Medium Spender"
      else "Light Spender") ∧
    (categorizeSpending 250).type = "Light Spender" ∧
    (categorizeSpending (40001 / 100)).type = "Big Spender" := by
  refine ⟨fun avg => ?_, by decide, by decide⟩
  by_cases h4 : avg > 400
  · simp [categorizeSpending, h4]
  · by_cases h2 : avg > 250
    · simp [categorizeSpending, h4, h2]
    · simp [categorizeSpending, h4, h2]

/-- A delivered order whose date string does not parse. -/
def badDateOrder : Order :=
  { defaultOrder with
      id := "ORD-42"
      date := "not-a-date"
      status := "Delivered"
      restaurant_name := "A"
      total_value := 100 }

theorem except_error_bind {ε α β : Type} (e : ε) (f : α → Except ε β) :
    (Except.error e >>= f) = Except.error e := rfl

theorem except_ok_bind {ε α β : Type} (a : α) (f : α → Except ε β) :
    (Except.ok a >>= f) = f a := rfl

/-- An invalid date anywhere in the list makes the monthly `_.countBy`
over `toISOString` keys raise, whatever the accumulator. -/
theorem countByM_toISOMonth_err (l : List Order) :
    ∀ acc : List (String × Nat),
      (∃ o ∈ l, jsParseDate o.date = none) →
      (List.foldlM (fun acc a => do
        let k ← toISOMonth a
        pure (upsertNat acc k 1)) acc l : Except JsError _) =
        .error (.rangeError "Invalid time value") := by
  induction l with
  | nil => intro acc h; simp at h
  | cons a t ih =>
    intro acc h
    rw [List.foldlM_cons]
    cases hp : jsParseDate a.date with
    | none =>
      simp only [toISOMonth, hp, except_error_bind]
    | some d =>
      simp only [toISOMonth, hp, except_ok_bind]
      rcases h with ⟨o, ho, hbad⟩
      rcases List.mem_cons.mp ho with rfl | hot
      · rw [hp] at hbad; exact absurd hbad (by simp)
      · exact ih _ ⟨o, hot, hbad⟩

theorem countByKeyM_toISOMonth_err (l : List Order)
    (h : ∃ o ∈ l, jsParseDate o.date = none) :
    countByKeyM toISOMonth l = .error (.rangeError "Invalid time value") := by
  unfold countByKeyM
  exact countByM_toISOMonth_err l [] h

/-- Same propagation through the new-restaurants fold of the diversity
analyzer. -/
theorem diversityFold_err (l : List Order) :
    ∀ acc : List (String × Nat) × List String,
      (∃ o ∈ l, jsParseDate o.date = none) →
      (List.foldlM diversityNewRestaurantsStep acc l : Except JsError _) =
        .error (.rangeError "Invalid time value") := by
  induction l with
  | nil => intro acc h; simp at h
  | cons a t ih =>
    intro acc h
    rw [List.foldlM_cons]
    cases hp : jsParseDate a.date with
    | none =>
      simp only [diversityNewRestaurantsStep, toISOMonth, hp, except_error_bind]
    | some d =>
      have hstep : diversityNewRestaurantsStep acc a =
          .ok (if acc.2.contains a.restaurant_name then acc
               else (upsertNat acc.1 (intToStr d.year ++ "-" ++ pad2 d.month) 1,
                     acc.2 ++ [a.restaurant_name])) := by
        simp only [diversityNewRestaurantsStep, toISOMonth, hp, except_ok_bind]
        split_ifs <;> rfl
      rw [hstep, except_ok_bind]
      rcases h with ⟨o, ho, hbad⟩
      rcases List.mem_cons.mp ho with rfl | hot
      · rw [hp] at hbad; exact absurd hbad (by simp)
      · exact ih _ ⟨o, hot, hbad⟩

theorem analyzeDiversity_err (l : List Order) (h2 : ¬ l.length < 2)
    (h : ∃ o ∈ l, jsParseDate o.date = none) :
    analyzeDiversity l = .error (.rangeError "Invalid time value") := by
  unfold analyzeDiversity
  rw [if_neg h2]
  show (List.foldlM diversityNewRestaurantsStep ([], []) l >>= _) = _
  rw [diversityFold_err l ([], []) h, except_error_bind]

theorem analyzeTimePatterns_err (l : List Order) (hne : l.isEmpty = false)
    (h : ∃ o ∈ l, jsParseDate o.date = none) :
    analyzeTimePatterns l = .error (.rangeError "Invalid time value") := by
  unfold analyzeTimePatterns
  rw [if_neg (by simp [hne])]
  show (countByKeyM toISOMonth l >>= _) = _
  rw [countByKeyM_toISOMonth_err l h, except_error_bind]

/-- C3 (amended): when the filtered (delivered) set contains an order with
an unparseable date, `analyze` does raise — but the generic
`RangeError: Invalid time value` thrown by `toISOString` inside the
diversity / time-analysis passes, not an `InvalidOrderDataError` naming
the offending order. -/
theorem analyze_unparseable_date_raises_rangeError (orders : List Order)
    (h : ∃ o ∈ deliveredOrdersOf orders, jsParseDate o.date = none) :
    analyze orders = .error (.rangeError "Invalid time value") := by
  obtain ⟨o, ho, hbad⟩ := h
  have hne : (deliveredOrdersOf orders).isEmpty = false := by
    cases hd : deliveredOrdersOf orders with
    | nil => rw [hd] at ho; simp at ho
    | cons x t => rfl
  have hsorted : ∃ o' ∈ (deliveredOrdersOf orders).insertionSort
      (fun a b => getTimeD a ≤ getTimeD b), jsParseDate o'.date = none :=
    ⟨o, (List.Perm.mem_iff (List.perm_insertionSort _ _)).mpr ho, hbad⟩
  have hsne : ((deliveredOrdersOf orders).insertionSort
      (fun a b => getTimeD a ≤ getTimeD b)).isEmpty = false := by
    obtain ⟨o', ho', _⟩ := hsorted
    cases hs : (deliveredOrdersOf orders).insertionSort (fun a b => getTimeD a ≤ getTimeD b) with
    | nil => rw [hs] at ho'; simp at ho'
    | cons x t => rfl
  unfold analyze
  rw [if_neg (by simp [hne])]
  by_cases hl : ((deliveredOrdersOf orders).insertionSort
      (fun a b => getTimeD a ≤ getTimeD b)).length < 2
  · have hdiv : analyzeDiversity ((deliveredOrdersOf orders).insertionSort
        (fun a b => getTimeD a ≤ getTimeD b)) = .ok zeroDiversity := by
      unfold analyzeDiversity; rw [if_pos hl]
    have htime := analyzeTimePatterns_err _ hsne hsorted
    simp only [hdiv, htime, except_ok_bind, except_error_bind]
    rfl
  · have hdiv := analyzeDiversity_err _ hl hsorted
    simp only [hdiv, except_error_bind]
    rfl

/-- C3 (counterexample): the claim says every input list containing an
order with an unparseable date makes `analyze` raise an explicit
`InvalidOrderDataError` naming the offending identifier.  It is false
twice over: with the bad-dated order filtered out (cancelled), `analyze`
returns the empty analytics without raising at all; and with the
bad-dated order delivered, the raised error is the generic
`RangeError: Invalid time value`, whose message does not mention the
order identifier "ORD-42". -/
theorem analyze_bad_date_no_invalidOrderDataError :
    analyze [{ badDateOrder with status := "Cancelled" }] = .ok getEmptyAnalytics ∧
    analyze [badDateOrder] = .error (.rangeError "Invalid time value") ∧
    strIncludes "Invalid time value" badDateOrder.id = false := by
  decide

/-- C3 (witness for the amended theorem). -/
theorem analyze_unparseable_date_raises_rangeError_witness :
    (∃ o ∈ deliveredOrdersOf [badDateOrder], jsParseDate o.date = none) ∧
    analyze [badDateOrder] = .error (.rangeError "Invalid time value") :=
  ⟨by decide, analyze_unparseable_date_raises_rangeError [badDateOrder] (by decide)⟩

/-- A cancelled order (filtered out by the status filter). -/
def cancelledOrder : Order := { ordSat with id := "ord-cancelled", status := "Cancelled" }

/-- A failed order (filtered out by the status filter). -/
def failedOrder : Order := { ordTue with id := "ord-failed", status := "Order failed" }

/-- C4: whenever the filtered (non-cancelled, non-failed) subset is empty —
in particular for the empty list — `analyze` returns, without raising, the
one canonical constant `getEmptyAnalytics`: every numeric field 0, every
mapping empty, `spending_category.type = "N/A"`, `spending_percentile = 50`,
`insights = []`.  The result is the same closed constant on every call, so
deep structural equality across calls holds by construction (the embedding
is pure, exactly as the source computation is). -/
theorem analyze_empty_filtered_is_canonical_empty (orders : List Order)
    (h : deliveredOrdersOf orders = []) :
    analyze orders = .ok getEmptyAnalytics ∧
    (getEmptyAnalytics.spending.total_spent = 0 ∧
     getEmptyAnalytics.spending.average_order_value = 0 ∧
     getEmptyAnalytics.spending.median_order_value = 0 ∧
     getEmptyAnalytics.spending.total_delivery_fees = 0 ∧
     getEmptyAnalytics.spending.total_service_fees = 0 ∧
     getEmptyAnalytics.spending.total_voucher_savings = 0 ∧
     getEmptyAnalytics.spending.voucher_usage_rate = 0 ∧
     getEmptyAnalytics.spending.monthly_spending = [] ∧
     getEmptyAnalytics.spending.spending_category.type = "N/A") ∧
    (getEmptyAnalytics.restaurants.top_restaurants_by_orders = [] ∧
     getEmptyAnalytics.restaurants.unique_restaurants = 0 ∧
     getEmptyAnalytics.restaurants.loyalty_analysis.level = "N/A" ∧
     getEmptyAnalytics.restaurants.loyalty_analysis.top_restaurant = "" ∧
     getEmptyAnalytics.restaurants.loyalty_analysis.top_restaurant_percentage = 0) ∧
    (getEmptyAnalytics.food.top_food_items = [] ∧
     getEmptyAnalytics.food.food_categories = [] ∧
     getEmptyAnalytics.food.average_items_per_order = 0 ∧
     getEmptyAnalytics.food.total_unique_items = 0) ∧
    (getEmptyAnalytics.patterns.peak_hour = some 0 ∧
     getEmptyAnalytics.patterns.peak_day = "" ∧
     getEmptyAnalytics.patterns.weekend_vs_weekday.weekend_orders = 0 ∧
     getEmptyAnalytics.patterns.weekend_vs_weekday.weekday_orders = 0 ∧
     getEmptyAnalytics.patterns.weekend_vs_weekday.weekend_percentage = 0 ∧
     getEmptyAnalytics.patterns.hourly_patterns = []) ∧
    (getEmptyAnalytics.payments.payment_method_counts = [] ∧
     getEmptyAnalytics.payments.preferred_payment_method = "N/A") ∧
    (getEmptyAnalytics.prices.average_price_per_item = 0 ∧
     getEmptyAnalytics.prices.price_range.min = 0 ∧
     getEmptyAnalytics.prices.price_range.max = 0 ∧
     getEmptyAnalytics.prices.restaurant_value_scores = [] ∧
     getEmptyAnalytics.prices.discount_effectiveness = 0 ∧
     getEmptyAnalytics.prices.price_trend_over_time = []) ∧
    (getEmptyAnalytics.behavior.order_size_distribution.small = 0 ∧
     getEmptyAnalytics.behavior.order_size_distribution.medium = 0 ∧
     getEmptyAnalytics.behavior.order_size_distribution.large = 0 ∧
     getEmptyAnalytics.behavior.average_basket_size = 0 ∧
     getEmptyAnalytics.behavior.addon_frequency.drinks_percentage = 0 ∧
     getEmptyAnalytics.behavior.addon_frequency.desserts_percentage = 0 ∧
     getEmptyAnalytics.behavior.reorder_patterns.exact_reorder_count = 0 ∧
     getEmptyAnalytics.behavior.reorder_patterns.similar_items_frequency = []) ∧
    (getEmptyAnalytics.diversity = zeroDiversity ∧
     zeroDiversity.cuisine_switching_rate = 0 ∧
     zeroDiversity.new_restaurants_per_month = [] ∧
     zeroDiversity.restaurant_discovery_rate = 0 ∧
     zeroDiversity.cuisine_preference_evolution = [] ∧
     zeroDiversity.variety_score = 0) ∧
    (getEmptyAnalytics.timeAnalysis = zeroTimeAnalytics ∧
     zeroTimeAnalytics.order_frequency_trend = [] ∧
     zeroTimeAnalytics.average_days_between_orders = 0 ∧
     zeroTimeAnalytics.spending_by_day_of_week = [] ∧
     zeroTimeAnalytics.seasonal_patterns = [] ∧
     zeroTimeAnalytics.time_gap_distribution.same_day = 0 ∧
     zeroTimeAnalytics.time_gap_distribution.within_week = 0 ∧
     zeroTimeAnalytics.time_gap_distribution.within_month = 0 ∧
     zeroTimeAnalytics.time_gap_distribution.over_month = 0 ∧
     zeroTimeAnalytics.ordering_acceleration = 0) ∧
    (getEmptyAnalytics.costOptimization.fee_to_food_ratio = 0 ∧
     getEmptyAnalytics.costOptimization.average_fee_percentage = 0 ∧
     getEmptyAnalytics.costOptimization.optimal_order_value = 0 ∧
     getEmptyAnalytics.costOptimization.voucher_impact.avg_savings_with_voucher = 0 ∧
     getEmptyAnalytics.costOptimization.voucher_impact.avg_order_value_with_voucher = 0 ∧
     getEmptyAnalytics.costOptimization.voucher_impact.avg_order_value_without_voucher = 0 ∧
     getEmptyAnalytics.costOptimization.delivery_fee_variance.min = 0 ∧
     getEmptyAnalytics.costOptimization.delivery_fee_variance.max = 0 ∧
     getEmptyAnalytics.costOptimization.delivery_fee_variance.avg = 0 ∧
     getEmptyAnalytics.costOptimization.potential_savings = 0) ∧
    (getEmptyAnalytics.healthDietary.healthy_vs_indulgent_ratio = 0 ∧
     getEmptyAnalytics.healthDietary.meal_type_distribution.breakfast = 0 ∧
     getEmptyAnalytics.healthDietary.meal_type_distribution.lunch = 0 ∧
     getEmptyAnalytics.healthDietary.meal_type_distribution.dinner = 0 ∧
     getEmptyAnalytics.healthDietary.meal_type_distribution.snack = 0 ∧
     getEmptyAnalytics.healthDietary.drink_to_food_ratio = 0 ∧
     getEmptyAnalytics.healthDietary.healthy_food_percentage = 0 ∧
     getEmptyAnalytics.healthDietary.indulgent_food_percentage = 0 ∧
     getEmptyAnalytics.healthDietary.category_health_scores = []) ∧
    (getEmptyAnalytics.predictive.forecasted_monthly_spending = 0 ∧
     getEmptyAnalytics.predictive.spending_trend = "stable" ∧
     getEmptyAnalytics.predictive.trend_percentage = 0 ∧
     getEmptyAnalytics.predictive.predicted_next_order_days = 0 ∧
     getEmptyAnalytics.predictive.estimated_annual_spending = 0) ∧
    (getEmptyAnalytics.advanced.customer_lifetime_value = 0 ∧
     getEmptyAnalytics.advanced.order_efficiency_score = 0 ∧
     getEmptyAnalytics.advanced.brand_loyalty_score = 0 ∧
     getEmptyAnalytics.advanced.spontaneity_index = some 0 ∧
     getEmptyAnalytics.advanced.deal_dependency_ratio = 0 ∧
     getEmptyAnalytics.advanced.churn_risk_score = 0 ∧
     getEmptyAnalytics.advanced.exploration_vs_exploitation.exploration_percentage = 0 ∧
     getEmptyAnalytics.advanced.exploration_vs_exploitation.exploitation_percentage = 0) ∧
    (getEmptyAnalytics.comparative.spending_percentile = 50 ∧
     getEmptyAnalytics.comparative.order_frequency_category = "N/A" ∧
     getEmptyAnalytics.comparative.value_consciousness_score = 0) ∧
    getEmptyAnalytics.insights = [] := by
  refine ⟨?_, by decide, by decide, by decide, by decide, by decide, by decide, by decide,
    by decide, by decide, by decide, by decide, by decide, by decide, by decide, by decide⟩
  unfold analyze
  rw [h]
  rfl

/-- C4 (witness): a list whose orders are all cancelled or failed filters
to the empty set, and `analyze` on it returns the canonical constant. -/
theorem analyze_empty_filtered_is_canonical_empty_witness :
    deliveredOrdersOf [cancelledOrder, failedOrder] = [] ∧
    analyze [cancelledOrder, failedOrder] = .ok getEmptyAnalytics ∧
    analyze [] = .ok getEmptyAnalytics :=
  ⟨by decide,
   (analyze_empty_filtered_is_canonical_empty [cancelledOrder, failedOrder] (by decide)).1,
   (analyze_empty_filtered_is_canonical_empty [] (by decide)).1⟩

/-!  C5: reorder signatures. -/

/-- First occurrence of each string, in order, relative to an
already-seen list. -/
def distinctAux : List String → List String → List String
  | [], _ => []
  | a :: t, seen => if a ∈ seen then distinctAux t seen else a :: distinctAux t (a :: seen)

/-- The distinct strings of a list in first-occurrence order. -/
def distinctList (l : List String) : List String := distinctAux l []

/-- The per-order signature as the claim words it: the sorted, pipe-joined
set of the order's DISTINCT lowercase item names.  Stated from the spec
sentence, for comparison with the implemented `orderSignature` (which
keeps duplicates). -/
def specOrderSignature (o : Order) : String :=
  joinPipe ((distinctList (o.items.map (fun i => jsTrim (jsToLower i.name)))).insertionSort
    (fun a b => strLeB a b = true))

/-- The reorder count the claim describes, over the deduplicated
signatures. -/
def specExactReorderCount (orders : List Order) : Nat :=
  ((countByStr (orders.map specOrderSignature)).filter (fun p => p.2 > 1)).length

/-- An order listing the same item name twice. -/
def dupBurgerOrder : Order :=
  { defaultOrder with
      id := "ord-dup"
      date := "2024-01-10"
      status := "Delivered"
      restaurant_name := "A"
      items := [{ name := "Burger", quantity := 1, price := 5 },
                { name := "Burger", quantity := 1, price := 5 }] }

/-- An order listing that item name once. -/
def singleBurgerOrder : Order :=
  { defaultOrder with
      id := "ord-single"
      date := "2024-01-12"
      status := "Delivered"
      restaurant_name := "A"
      items := [{ name := "Burger", quantity := 1, price := 5 }] }

/-- C5 (counterexample): the implemented signature keeps duplicate item
names ("burger|burger"), the claimed signature would not ("burger"), and
the difference is observable: an order listing burger twice and an order
listing it once share the claimed signature (so the claim predicts
`exact_reorder_count = 1`) but not the implemented one (the code reports
0). -/
theorem orderSignature_keeps_duplicates :
    orderSignature dupBurgerOrder = "burger|burger" ∧
    specOrderSignature dupBurgerOrder = "burger" ∧
    ¬ orderSignature dupBurgerOrder = specOrderSignature dupBurgerOrder ∧
    (analyzeOrderBehavior [dupBurgerOrder, singleBurgerOrder]).reorder_patterns.exact_reorder_count = 0 ∧
    specExactReorderCount [dupBurgerOrder, singleBurgerOrder] = 1 := by
  decide

theorem upsertNat_not_mem (m : List (String × Nat)) (k : String) (v : Nat)
    (h : k ∉ m.map Prod.fst) : upsertNat m k v = m ++ [(k, v)] := by
  induction m with
  | nil => rfl
  | cons p rest ih =>
    simp only [List.map_cons, List.mem_cons, not_or] at h
    simp only [upsertNat, if_neg (Ne.symm h.1), List.cons_append, ih h.2]

theorem map_id_of_key_ne (m : List (String × Nat)) (k : String) (v : Nat)
    (h : ∀ p ∈ m, p.1 ≠ k) :
    m.map (fun p => if p.1 = k then (p.1, p.2 + v) else p) = m := by
  induction m with
  | nil => rfl
  | cons p rest ih =>
    simp only [List.map_cons, if_neg (h p (List.mem_cons_self p rest))]
    rw [ih (fun q hq => h q (List.mem_cons_of_mem p hq))]

theorem upsertNat_mem (m : List (String × Nat)) (k : String) (v : Nat)
    (hnd : (m.map Prod.fst).Nodup) (h : k ∈ m.map Prod.fst) :
    upsertNat m k v = m.map (fun p => if p.1 = k then (p.1, p.2 + v) else p) := by
  induction m with
  | nil => simp at h
  | cons p rest ih =>
    obtain ⟨k', v'⟩ := p
    simp only [List.map_cons, List.nodup_cons] at hnd
    by_cases hp : k' = k
    · subst hp
      rw [upsertNat, if_pos rfl, List.map_cons]
      have hrest : rest.map (fun p => if p.1 = k' then (p.1, p.2 + v) else p) = rest := by
        apply map_id_of_key_ne
        intro q hq hqe
        exact hnd.1 (hqe ▸ List.mem_map_of_mem Prod.fst hq)
      rw [hrest]
      simp
    · have hk : k ∈ rest.map Prod.fst := by
        rcases List.mem_cons.mp h with e | hk
        · exact absurd e.symm hp
        · exact hk
      rw [upsertNat, if_neg hp, List.map_cons]
      simp only [if_neg hp]
      rw [ih hnd.2 hk]

theorem distinctAux_not_seen (t : List String) :
    ∀ seen k, k ∈ distinctAux t seen → k ∉ seen := by
  induction t with
  | nil => intro seen k h; simp [distinctAux] at h
  | cons a t ih =>
    intro seen k h
    by_cases ha : a ∈ seen
    · rw [distinctAux, if_pos ha] at h
      exact ih seen k h
    · rw [distinctAux, if_neg ha] at h
      rcases List.mem_cons.mp h with rfl | hk
      · exact ha
      · intro hks
        exact ih (a :: seen) k hk (List.mem_cons_of_mem a hks)

theorem distinctAux_congr (t : List String) :
    ∀ seen seen', (∀ x, x ∈ seen ↔ x ∈ seen') →
      distinctAux t seen = distinctAux t seen' := by
  induction t with
  | nil => intro _ _ _; rfl
  | cons a t ih =>
    intro seen seen' hmem
    by_cases ha : a ∈ seen
    · rw [distinctAux, if_pos ha, distinctAux, if_pos ((hmem a).mp ha)]
      exact ih seen seen' hmem
    · rw [distinctAux, if_neg ha, distinctAux, if_neg (fun c => ha ((hmem a).mpr c))]
      rw [ih (a :: seen) (a :: seen') (fun x => by simp [hmem x])]

/-- The count-by fold, from any accumulator with distinct keys: existing
entries get their final counts in place, new keys are appended in
first-occurrence order with their counts. -/
theorem countFold_eq (S : List String) :
    ∀ acc : List (String × Nat), (acc.map Prod.fst).Nodup →
      S.foldl (fun m s => upsertNat m s 1) acc =
        acc.map (fun p => (p.1, p.2 + S.count p.1))
          ++ (distinctAux S (acc.map Prod.fst)).map (fun k => (k, S.count k)) := by
  induction S with
  | nil =>
    intro acc _
    simp [distinctAux, List.count_nil]
  | cons s S ih =>
    intro acc hnd
    rw [List.foldl_cons]
    by_cases hs : s ∈ acc.map Prod.fst
    · have hkeys : (upsertNat acc s 1).map Prod.fst = acc.map Prod.fst := by
        rw [upsertNat_mem acc s 1 hnd hs, List.map_map]
        apply List.map_congr_left
        intro p _
        by_cases hp : p.1 = s <;> simp [hp]
      rw [ih (upsertNat acc s 1) (hkeys ▸ hnd), hkeys, upsertNat_mem acc s 1 hnd hs]
      congr 1
      · rw [List.map_map]
        apply List.map_congr_left
        intro p _
        by_cases hp : p.1 = s
        · simp [hp, List.count_cons]
          omega
        · simp [hp, List.count_cons]
      · rw [distinctAux, if_pos hs]
        apply List.map_congr_left
        intro k hk
        have : k ∉ acc.map Prod.fst := distinctAux_not_seen S _ k hk
        have hks : k ≠ s := fun e => this (e ▸ hs)
        simp [List.count_cons, hks]
    · have hacc' : upsertNat acc s 1 = acc ++ [(s, 1)] := upsertNat_not_mem acc s 1 hs
      have hkeys : (upsertNat acc s 1).map Prod.fst = acc.map Prod.fst ++ [s] := by
        rw [hacc']; simp
      have hnd' : ((upsertNat acc s 1).map Prod.fst).Nodup := by
        rw [hkeys]
        refine List.Nodup.append hnd (List.nodup_singleton s) ?_
        intro a ha hb
        simp only [List.mem_singleton] at hb
        exact hs (hb ▸ ha)
      rw [ih (upsertNat acc s 1) hnd', hkeys, hacc']
      rw [distinctAux_congr S (acc.map Prod.fst ++ [s]) (s :: acc.map Prod.fst)
        (fun x => by simp [or_comm])]
      rw [List.map_append, distinctAux, if_neg hs]
      simp only [List.map_cons, List.map_nil, List.nil_append]
      rw [List.append_assoc, List.singleton_append]
      congr 1
      · apply List.map_congr_left
        intro p hp
        have hne : p.1 ≠ s := fun e => hs (e ▸ List.mem_map_of_mem Prod.fst hp)
        simp [List.count_cons, hne]
      · congr 1
        · simp [List.count_cons, Nat.add_comm]
        · apply List.map_congr_left
          intro k hk
          have hns : k ∉ s :: acc.map Prod.fst := distinctAux_not_seen S _ k hk
          have hks : k ≠ s := fun e => hns (e ▸ List.mem_cons_self s _)
          simp [List.count_cons, hks]

theorem filter_map_length {α β : Type} (f : α → β) (p : β → Bool) (l : List α) :
    ((l.map f).filter p).length = (l.filter (fun a => p (f a))).length := by
  induction l with
  | nil => rfl
  | cons a t ih =>
    simp only [List.map_cons, List.filter_cons]
    split <;> simp [ih]

/-- C5 (amended): the implemented signature is the sorted, pipe-joined
MULTISET of the order's lowercase trimmed item names — duplicates within
one order are preserved (first conjunct; compare the two-item
"burger|burger") — and `exact_reorder_count` equals the number of distinct
signatures occurring in more than one order. -/
theorem exact_reorder_count_repeated_signatures (orders : List Order) :
    orderSignature dupBurgerOrder = "burger|burger" ∧
    (analyzeOrderBehavior orders).reorder_patterns.exact_reorder_count =
      ((distinctList (orders.map orderSignature)).filter
        (fun s => 1 < (orders.map orderSignature).count s)).length := by
  refine ⟨by decide, ?_⟩
  show ((countByStr (orders.map orderSignature)).filter (fun p => p.2 > 1)).length = _
  unfold countByStr
  rw [countFold_eq (orders.map orderSignature) [] (by simp)]
  simp only [List.map_nil, List.nil_append]
  rw [show distinctAux (orders.map orderSignature) []
        = distinctList (orders.map orderSignature) from rfl]
  rw [filter_map_length]

/-!  C6: predictive trend. -/

/-- A delivered January order totalling 100 (with the February order
below, the recent monthly totals 100 and 150 give an OLS slope of 50 over
a mean of 125, a raw trend of +40%). -/
def ordJan : Order :=
  { defaultOrder with
      id := "ord-jan"
      date := "2024-01-10"
      status := "Delivered"
      restaurant_name := "A"
      total_value := 100 }

/-- A delivered February order totalling 150. -/
def ordFeb : Order :=
  { defaultOrder with
      id := "ord-feb"
      date := "2024-02-10"
      status := "Delivered"
      restaurant_name := "A"
      total_value := 150 }

/-- C6: in the general (≥ 2 orders) case of `analyzePredictive`, the
reported `trend_percentage` is the raw slope-over-mean trend percentage of
the recent monthly totals (`rawTrendPct`) clamped to [−15, +15], and the
`spending_trend` label is "increasing" exactly when the clamped trend
exceeds 5, "decreasing" exactly when it is below −5, and "stable"
otherwise.  (The witness instantiates the synthetic raw +40% input, which
reports 15 and "increasing".) -/
theorem analyzePredictive_trend_clamped_and_labelled (orders : List Order)
    (sp : SpendingAnalytics) (ta : TimeAnalytics) (h : 2 ≤ orders.length) :
    (analyzePredictive orders sp ta).trend_percentage =
      max (-15) (min 15 (rawTrendPct sp)) ∧
    ((analyzePredictive orders sp ta).spending_trend = "increasing" ↔
      5 < max (-15) (min 15 (rawTrendPct sp))) ∧
    ((analyzePredictive orders sp ta).spending_trend = "decreasing" ↔
      max (-15) (min 15 (rawTrendPct sp)) < -5) ∧
    ((analyzePredictive orders sp ta).spending_trend = "stable" ↔
      (¬ 5 < max (-15) (min 15 (rawTrendPct sp)) ∧
       ¬ max (-15) (min 15 (rawTrendPct sp)) < -5)) := by
  simp only [analyzePredictive]
  rw [if_neg (by omega)]
  by_cases hi : max (-15 : ℚ) (min 15 (rawTrendPct sp)) > 5
  · have hd : ¬ max (-15 : ℚ) (min 15 (rawTrendPct sp)) < -5 := by
      intro h5
      have : (5 : ℚ) < -5 := lt_trans hi h5
      norm_num at this
    rw [if_pos hi]
    exact ⟨rfl,
      ⟨fun _ => hi, fun _ => rfl⟩,
      ⟨fun he => absurd (show ("increasing" : String) = "decreasing" from he) (by decide),
       fun hc => absurd hc hd⟩,
      ⟨fun he => absurd (show ("increasing" : String) = "stable" from he) (by decide),
       fun hc => absurd hi hc.1⟩⟩
  · rw [if_neg hi]
    by_cases hd : max (-15 : ℚ) (min 15 (rawTrendPct sp)) < -5
    · rw [if_pos hd]
      exact ⟨rfl,
        ⟨fun he => absurd (show ("decreasing" : String) = "increasing" from he) (by decide),
         fun hc => absurd hc hi⟩,
        ⟨fun _ => hd, fun _ => rfl⟩,
        ⟨fun he => absurd (show ("decreasing" : String) = "stable" from he) (by decide),
         fun hc => absurd hd hc.2⟩⟩
    · rw [if_neg hd]
      exact ⟨rfl,
        ⟨fun he => absurd (show ("stable" : String) = "increasing" from he) (by decide),
         fun hc => absurd hc hi⟩,
        ⟨fun he => absurd (show ("stable" : String) = "decreasing" from he) (by decide),
         fun hc => absurd hc hd⟩,
        ⟨fun _ => ⟨hi, hd⟩, fun _ => rfl⟩⟩

/-- C6 (witness): the synthetic two-month input with monthly totals 100
and 150 has raw trend +40%, reported clamped to 15 and labelled
"increasing". -/
theorem analyzePredictive_trend_clamped_and_labelled_witness :
    2 ≤ ([ordJan, ordFeb] : List Order).length ∧
    rawTrendPct (analyzeSpending [ordJan, ordFeb]) = 40 ∧
    (analyzePredictive [ordJan, ordFeb] (analyzeSpending [ordJan, ordFeb])
      zeroTimeAnalytics).trend_percentage = 15 ∧
    (analyzePredictive [ordJan, ordFeb] (analyzeSpending [ordJan, ordFeb])
      zeroTimeAnalytics).spending_trend = "increasing" := by
  have h := analyzePredictive_trend_clamped_and_labelled [ordJan, ordFeb]
    (analyzeSpending [ordJan, ordFeb]) zeroTimeAnalytics (by decide)
  refine ⟨by decide, by decide, ?_, ?_⟩
  · rw [h.1]
    decide
  · exact h.2.1.mpr (by decide)

/-- C7: for every non-empty value list, `calculateMedian` returns the
middle element of the ascending-sorted list on odd length and the mean of
the two middle elements on even length — stated against any sorted
permutation `s` of the input — and maps [100, 200, 300] to 200 and
[100, 200, 300, 400] to 250. -/
theorem calculateMedian_sorted_middle (values s : List ℚ) (hne : values ≠ [])
    (hperm : s.Perm values) (hsort : s.Sorted (· ≤ ·)) :
    (values.length % 2 = 1 → calculateMedian values = s.getD (values.length / 2) 0) ∧
    (values.length % 2 = 0 →
      calculateMedian values =
        (s.getD (values.length / 2 - 1) 0 + s.getD (values.length / 2) 0) / 2) ∧
    calculateMedian [100, 200, 300] = 200 ∧
    calculateMedian [100, 200, 300, 400] = 250 := by
  have hs : s = values.insertionSort (· ≤ ·) :=
    List.eq_of_perm_of_sorted (hperm.trans (List.perm_insertionSort _ _).symm) hsort
      (List.sorted_insertionSort _ _)
  have hlen : (values.insertionSort (· ≤ ·)).length = values.length :=
    (List.perm_insertionSort _ _).length_eq
  have hie : values.isEmpty = false := by
    cases values with
    | nil => exact absurd rfl hne
    | cons a t => rfl
  subst hs
  refine ⟨?_, ?_, by decide, by decide⟩
  · intro hodd
    simp only [calculateMedian, hie, Bool.false_eq_true, if_false, hlen]
    rw [if_pos (by omega)]
  · intro heven
    simp only [calculateMedian, hie, Bool.false_eq_true, if_false, hlen]
    rw [if_neg (by omega)]

/-- C7 (witness): the even-length literal input. -/
theorem calculateMedian_sorted_middle_witness :
    ([100, 200, 300, 400] : List ℚ) ≠ [] ∧
    List.Perm ([100, 200, 300, 400] : List ℚ) [100, 200, 300, 400] ∧
    List.Sorted (· ≤ ·) ([100, 200, 300, 400] : List ℚ) ∧
    calculateMedian [100, 200, 300] = 200 ∧
    calculateMedian [100, 200, 300, 400] = 250 ∧
    calculateMedian [100, 200, 300, 400] =
      (([100, 200, 300, 400] : List ℚ).getD 1 0 + ([100, 200, 300, 400] : List ℚ).getD 2 0) / 2 := by
  have hsort : List.Sorted (· ≤ ·) ([100, 200, 300, 400] : List ℚ) := by decide
  have h := calculateMedian_sorted_middle [100, 200, 300, 400] [100, 200, 300, 400]
    (by decide) (List.Perm.refl _) hsort
  exact ⟨by decide, List.Perm.refl _, hsort, h.2.2.1, h.2.2.2, h.2.1 (by decide)⟩

/-!  C8: insight generation. -/

def defaultInsight : Insight :=
  { category := "", icon := "", title := "", description := "",
    detailedExplanation := "", color := "" }

/-- C8: for any facet inputs, `generateInsights` emits the spending
insight first, then the voucher insight exactly when the voucher usage
rate exceeds 20 (titled "Smart Saver" above 50, otherwise "Deal Hunter"),
then exactly one timing insight, then exactly one loyalty insight — the
category sequence is fixed. -/
theorem generateInsights_structure (sp : SpendingAnalytics) (r : RestaurantAnalytics)
    (pat : PatternAnalytics) (co : CostOptimizationAnalytics) (pr : PredictiveAnalytics)
    (ad : AdvancedMetrics) (he : HealthDietaryAnalytics) (dv : DiversityAnalytics) :
    ((generateInsights sp r pat co pr ad he dv).map Insight.category =
      ["spending"] ++ (if sp.voucher_usage_rate > 20 then ["voucher"] else []) ++
        ["timing", "loyalty"]) ∧
    (sp.voucher_usage_rate > 20 →
      ((generateInsights sp r pat co pr ad he dv).getD 1 defaultInsight).title =
        if sp.voucher_usage_rate > 50 then "Smart Saver" else "Deal Hunter") := by
  constructor
  · by_cases hv : sp.voucher_usage_rate > 20
    · simp [generateInsights, hv]
    · simp [generateInsights, hv]
  · intro hv
    simp [generateInsights, hv]

/-- C8 (witness): with a 60% voucher usage rate the four insights appear
in the fixed order and the voucher insight is titled "Smart Saver". -/
theorem generateInsights_structure_witness :
    ({ getEmptyAnalytics.spending with voucher_usage_rate := 60 } :
        SpendingAnalytics).voucher_usage_rate > 20 ∧
    ((generateInsights { getEmptyAnalytics.spending with voucher_usage_rate := 60 }
        getEmptyAnalytics.restaurants getEmptyAnalytics.patterns
        getEmptyAnalytics.costOptimization getEmptyAnalytics.predictive
        getEmptyAnalytics.advanced getEmptyAnalytics.healthDietary
        getEmptyAnalytics.diversity).map Insight.category =
      ["spending", "voucher", "timing", "loyalty"]) ∧
    ((generateInsights { getEmptyAnalytics.spending with voucher_usage_rate := 60 }
        getEmptyAnalytics.restaurants getEmptyAnalytics.patterns
        getEmptyAnalytics.costOptimization getEmptyAnalytics.predictive
        getEmptyAnalytics.advanced getEmptyAnalytics.healthDietary
        getEmptyAnalytics.diversity).getD 1 defaultInsight).title = "Smart Saver" := by
  have h := generateInsights_structure
    { getEmptyAnalytics.spending with voucher_usage_rate := 60 }
    getEmptyAnalytics.restaurants getEmptyAnalytics.patterns
    getEmptyAnalytics.costOptimization getEmptyAnalytics.predictive
    getEmptyAnalytics.advanced getEmptyAnalytics.healthDietary
    getEmptyAnalytics.diversity
  refine ⟨by decide, ?_, ?_⟩
  · rw [h.1]
    decide
  · rw [h.2 (by decide)]
    decide

/-- C9: for every non-empty order list, the spending facet satisfies
`average_order_value × order count = total_spent` exactly (the embedding
computes over exact rationals), where `total_spent` is the sum of the
orders' `total_value` fields. -/
theorem analyzeSpending_average_times_count (orders : List Order) (h : orders ≠ []) :
    (analyzeSpending orders).total_spent = sumBy Order.total_value orders ∧
    (analyzeSpending orders).average_order_value * (orders.length : ℚ) =
      (analyzeSpending orders).total_spent := by
  refine ⟨rfl, ?_⟩
  show (sumBy Order.total_value orders / (orders.length : ℚ)) * (orders.length : ℚ) =
    sumBy Order.total_value orders
  have hlen : ((orders.length : ℚ)) ≠ 0 :=
    Nat.cast_ne_zero.mpr (fun e => h (List.length_eq_zero.mp e))
  exact div_mul_cancel₀ _ hlen

/-- C9 (witness): two orders totalling 300 and 200 give
`total_spent = 500` and `average_order_value × 2 = 500`. -/
theorem analyzeSpending_average_times_count_witness :
    ([ordSat, ordTue] : List Order) ≠ [] ∧
    (analyzeSpending [ordSat, ordTue]).total_spent = 500 ∧
    (analyzeSpending [ordSat, ordTue]).average_order_value *
      (([ordSat, ordTue] : List Order).length : ℚ) =
      (analyzeSpending [ordSat, ordTue]).total_spent :=
  ⟨by decide, by decide,
   (analyzeSpending_average_times_count [ordSat, ordTue] (by decide)).2⟩

/-- C10: the order-size distribution partitions the filtered orders —
each order lands in exactly one of small (summed quantity ≤ 2), medium
(≤ 5) or large (the if / else-if / else chain), so the three buckets sum
to the number of orders. -/
theorem order_size_distribution_partitions (orders : List Order) :
    (analyzeOrderBehavior orders).order_size_distribution.small +
      (analyzeOrderBehavior orders).order_size_distribution.medium +
      (analyzeOrderBehavior orders).order_size_distribution.large = orders.length := by
  show orders.countP (fun o => orderItemCount o ≤ 2) +
      orders.countP (fun o => ¬(orderItemCount o ≤ 2) ∧ orderItemCount o ≤ 5) +
      orders.countP (fun o => ¬(orderItemCount o ≤ 2) ∧ ¬(orderItemCount o ≤ 5)) =
    orders.length
  induction orders with
  | nil => rfl
  | cons o t ih =>
    simp only [List.countP_cons, List.length_cons]
    by_cases h1 : orderItemCount o ≤ 2
    · rw [if_pos (by simpa using h1), if_neg (by simp [h1]), if_neg (by simp [h1])]
      omega
    · by_cases h2 : orderItemCount o ≤ 5
      · rw [if_neg (by simpa using h1), if_pos (by simp [h1, h2]), if_neg (by simp [h2])]
        omega
      · rw [if_neg (by simpa using h1), if_neg (by simp [h2]), if_pos (by simp [h1, h2])]
        omega

end FoodpandaDash
